import Mathlib

/-!
# services/tcp/tcp.go : the TCP relay service

A shallow embedding of `services/tcp/tcp.go`.  Each Go method of `TCP` becomes a
Lean function that takes the receiver state and returns the new state, the
list of observable effects it performed (in program order) and how it ended.
Collaborators that live outside the file (dial primitives, the certificate
loader, the listener constructors, the UDP envelope codec, the standard
library) are fields of `World`; the answers the network gives to one iteration
of the UDP loop are a `UDPRound`.
-/

namespace TcpService

/-! ## Data model -/

abbrev Bytes := List Nat

/-- Go error values.  `io.EOF` and `io.ErrUnexpectedEOF` are sentinels that the
code compares by identity; `errorf` is an error built by `fmt.Errorf` in this
file; `external` is any error handed back by a collaborator. -/
inductive GoError where
  | EOF
  | ErrUnexpectedEOF
  | errorf (msg : String)
  | external (msg : String)
deriving DecidableEq, Repr

/-- The text of an error, as printed by the `%s` verb. -/
def GoError.Error : GoError → String
  | .EOF => "EOF"
  | .ErrUnexpectedEOF => "unexpected EOF"
  | .errorf msg => msg
  | .external msg => msg

/-- A non-nil `net.Conn`: an identity and the text of `RemoteAddr()`. -/
structure Conn where
  id : Nat
  remoteAddr : String
deriving DecidableEq, Repr

/-- Modelled from the spec: `kcpcfg.KCPConfigArgs`, the reliable-tunnel tuning
parameters; the type is declared outside this file and is only passed on. -/
structure KCPConfigArgs where
  tag : Nat
deriving DecidableEq, Repr

/-- Modelled from the spec: `jumper.Jumper`, the dial-through chain; declared
outside this file, only built by `jumper.New` and used through `Dial`. -/
structure Jumper where
  spec : String
  timeout : Int
deriving DecidableEq, Repr

/-- The struct `TCPArgs`.  The Go fields are pointers that the code
dereferences; the embedding holds the pointed-to values. -/
structure TCPArgs where
  Parent : String
  CertFile : String
  KeyFile : String
  CertBytes : Bytes
  KeyBytes : Bytes
  Local : String
  ParentType : String
  LocalType : String
  Timeout : Int
  CheckParentInterval : Int
  KCP : KCPConfigArgs
  Jumper : String
deriving DecidableEq, Repr

/-- Modelled from the spec: `utils.ServerChannel`, declared outside this file.
`Listener` is a `*net.Listener`: a nil pointer, a pointer to a nil interface, or
a pointer to a listener; `UDPListener` is a pointer that may be nil. -/
structure ServerChannel where
  ip : String
  port : Int
  Listener : Option (Option Nat)
  UDPListener : Option Nat
deriving DecidableEq, Repr

/-- Modelled from the spec: `mapx.ConcurrentMap`, the registry keyed by remote
address, declared outside this file: a finite map with `Get`, `Set`, `Remove`
and `Items`. -/
structure ConcurrentMap where
  entries : List (String × Conn)
deriving DecidableEq, Repr

def NewConcurrentMap : ConcurrentMap := ⟨[]⟩

def ConcurrentMap.Get (m : ConcurrentMap) (key : String) : Option Conn :=
  (m.entries.find? (fun kv => kv.1 == key)).map (fun kv => kv.2)

def ConcurrentMap.Remove (m : ConcurrentMap) (key : String) : ConcurrentMap :=
  ⟨m.entries.filter (fun kv => kv.1 != key)⟩

def ConcurrentMap.Set (m : ConcurrentMap) (key : String) (c : Conn) : ConcurrentMap :=
  ⟨(key, c) :: (m.Remove key).entries⟩

def ConcurrentMap.Items (m : ConcurrentMap) : List (String × Conn) := m.entries

def ConcurrentMap.IsEmpty (m : ConcurrentMap) : Bool := m.entries.isEmpty

/-- The struct `TCP` (the logger is represented by the `log` effects). -/
structure TCP where
  cfg : TCPArgs
  sc : Option ServerChannel
  isStop : Bool
  userConns : ConcurrentMap
  jumper : Option Jumper
deriving DecidableEq, Repr

/-- The zero value of `TCPArgs` with every pointer set to an empty value. -/
def emptyArgs : TCPArgs :=
  ⟨"", "", "", [], [], "", "", "", 0, 0, ⟨0⟩, ""⟩

def NewTCP : TCP :=
  { cfg := emptyArgs, sc := none, isStop := false, userConns := NewConcurrentMap, jumper := none }

/-! ## Effects and outcomes -/

inductive Fn where
  | OutToTCP
  | OutToUDP
deriving DecidableEq, Repr

inductive DialPrim where
  | TlsConnectHost
  | JumperDial
  | ConnectKCPHost
  | ConnectHost
deriving DecidableEq, Repr

inductive ListenKind where
  | tcp
  | tls
  | kcp
deriving DecidableEq, Repr

/-- One observable effect of the service. -/
inductive Event where
  | log (msg : String)
  | call (fn : Fn) (inConn : Conn)
  | connClose (c : Conn)
  | listenerClose (l : Nat)
  | udpListenerClose (l : Nat)
  | tlsConfig
  | dial (p : DialPrim) (addr : String)
  | ioBind (inConn outConn : Conn)
  | registrySet (key : String) (c : Conn)
  | readUDPPacket (c : Conn) (srcAddr : String) (body : Bytes) (err : Option GoError)
  | resolveUDPAddr (addr : String)
  | dialUDP (dst : String)
  | udpSetDeadline (d : Int)
  | udpWrite (body : Bytes)
  | udpRead
  | connWrite (c : Conn) (data : Bytes)
  | newServerChannel (host : String) (port : Int)
  | listen (kind : ListenKind)
deriving DecidableEq, Repr

/-- How a call ended: it returned, it panicked, or it is still waiting for an
answer that the finite script of network answers does not contain. -/
inductive Outcome (α : Type) where
  | returned (a : α)
  | panicked (msg : String)
  | blocked
deriving DecidableEq, Repr

structure Run (α : Type) where
  state : TCP
  events : List Event
  outcome : Outcome α

/-- The runtime error text of a nil dereference. -/
def nilDeref : String := "runtime error: invalid memory address or nil pointer dereference"

/-- The conversion `time.Millisecond * time.Duration(ms)` on signed 64-bit
integers. -/
def Duration (ms : Int) : Int :=
  ((1000000 * ms + 2 ^ 63) % 2 ^ 64) - 2 ^ 63

/-- The collaborators of the file.  Every Go function that returns a value and
an error is a function to a pair, because the code decides itself which half
it looks at. -/
structure World where
  TlsBytes : String → String → Bytes × Bytes × Option GoError
  jumperNew : String → Int → Jumper × Option GoError
  TlsConnectHost : String → Int → Bytes → Bytes → Conn × Option GoError
  TlsConfig : Bytes → Bytes → Nat × Option GoError
  tlsClient : Option Conn → Nat → Conn
  jumperDial : Jumper → String → Int → Option Conn × Option GoError
  ConnectKCPHost : String → KCPConfigArgs → Option Conn × Option GoError
  ConnectHost : String → Int → Option Conn × Option GoError
  UDPPacket : String → Bytes → Bytes
  SplitHostPort : String → String × String
  Atoi : String → Int
  ListenTCP : ServerChannel → ServerChannel × Option GoError
  ListenTls : Bytes → Bytes → ServerChannel → ServerChannel × Option GoError
  ListenKCP : KCPConfigArgs → ServerChannel → ServerChannel × Option GoError
  listenerAddr : Nat → String
  stack : String

/-! ## Validation and start -/

/-- Lines 62-67 of `CheckArgs`: the certificate and key are loaded when the
parent kind or the local kind is "tls". -/
def CheckArgs_loadTls (w : World) (s : TCP) : TCP × Option GoError :=
  if s.cfg.ParentType = "tls" ∨ s.cfg.LocalType = "tls" then
    ({ s with cfg := { s.cfg with CertBytes := (w.TlsBytes s.cfg.CertFile s.cfg.KeyFile).1,
                                  KeyBytes := (w.TlsBytes s.cfg.CertFile s.cfg.KeyFile).2.1 } },
      (w.TlsBytes s.cfg.CertFile s.cfg.KeyFile).2.2)
  else (s, none)

/-- Lines 68-81 of `CheckArgs`: the jumper guard and the parsing of the jumper
string. -/
def CheckArgs_jumper (w : World) (s : TCP) : TCP × Option GoError :=
  if s.cfg.Jumper ≠ "" then
    if s.cfg.ParentType ≠ "tls" ∧ s.cfg.ParentType ≠ "tcp" then
      (s, some (.errorf "jumper only worked of -T is tls or tcp"))
    else
      match (w.jumperNew s.cfg.Jumper (Duration s.cfg.Timeout)).2 with
      | some e => (s, some (.errorf ("parse jumper fail, err " ++ e.Error)))
      | none => ({ s with jumper := some (w.jumperNew s.cfg.Jumper (Duration s.cfg.Timeout)).1 }, none)
  else (s, none)

/-- The method `CheckArgs`: returns the updated receiver and `err`. -/
def CheckArgs (w : World) (s : TCP) : TCP × Option GoError :=
  if s.cfg.Parent.utf8ByteSize = 0 then
    (s, some (.errorf ("parent required for " ++ s.cfg.LocalType ++ " " ++ s.cfg.Local)))
  else if s.cfg.ParentType = "" then
    (s, some (.errorf "parent type unkown,use -T <tls|tcp|kcp|udp>"))
  else
    match (CheckArgs_loadTls w s).2 with
    | some e => ((CheckArgs_loadTls w s).1, some e)
    | none => CheckArgs_jumper w (CheckArgs_loadTls w s).1

/-- The method `InitService`. -/
def InitService (_s : TCP) : Option GoError := none

/-- Modelled from the spec: `utils.NewServerChannel`, declared outside this
file; it builds a channel that has no listener yet. -/
def NewServerChannel (host : String) (port : Int) : ServerChannel :=
  { ip := host, port := port, Listener := none, UDPListener := none }

/-- The listener selection of `Start`: which `Listen*` primitive is called for
the local kind, if any. -/
def startListen (w : World) (s : TCP) (sc : ServerChannel) :
    ServerChannel × Option GoError × List Event :=
  if s.cfg.LocalType = "tcp" then
    ((w.ListenTCP sc).1, (w.ListenTCP sc).2, [Event.listen .tcp])
  else if s.cfg.LocalType = "tls" then
    ((w.ListenTls s.cfg.CertBytes s.cfg.KeyBytes sc).1,
      (w.ListenTls s.cfg.CertBytes s.cfg.KeyBytes sc).2, [Event.listen .tls])
  else if s.cfg.LocalType = "kcp" then
    ((w.ListenKCP s.cfg.KCP sc).1, (w.ListenKCP s.cfg.KCP sc).2, [Event.listen .kcp])
  else (sc, none, [])

/-- The server channel that `Start` builds from the local address (lines
117-119): `NewServerChannel` on the host and the numeric port of `Local`. -/
def startChannel (w : World) (s : TCP) : ServerChannel :=
  NewServerChannel (w.SplitHostPort s.cfg.Local).1 (w.Atoi (w.SplitHostPort s.cfg.Local).2)

/-- The method `Start`. -/
def Start (w : World) (s : TCP) (args : TCPArgs) : Run (Option GoError) :=
  let s0 := { s with cfg := args }
  let checked := CheckArgs w s0
  let s1 := checked.1
  match checked.2 with
  | some e => ⟨s1, [], .returned (some e)⟩
  | none =>
    match InitService s1 with
    | some e => ⟨s1, [], .returned (some e)⟩
    | none =>
      let ev1 := [Event.log ("use " ++ s1.cfg.ParentType ++ " parent " ++ s1.cfg.Parent)]
      let hp := w.SplitHostPort s1.cfg.Local
      let p := w.Atoi hp.2
      let sc := NewServerChannel hp.1 p
      let ev2 := ev1 ++ [Event.newServerChannel hp.1 p]
      let l := startListen w s1 sc
      match l.2.1 with
      | some e => ⟨s1, ev2 ++ l.2.2, .returned (some e)⟩
      | none =>
        match l.1.Listener with
        | some (some ln) =>
          ⟨{ s1 with sc := some l.1 },
            ev2 ++ l.2.2 ++ [Event.log (s1.cfg.LocalType ++ " proxy on " ++ w.listenerAddr ln)],
            .returned none⟩
        | _ => ⟨s1, ev2 ++ l.2.2, .panicked nilDeref⟩

/-! ## Stop -/

/-- Modelled from the spec: `utils.CloseConn`, declared outside this file: it
closes the connection it is given and swallows any fault. -/
def CloseConn (c : Conn) : List Event := [Event.connClose c]

/-- The method `StopService`.  A nil `s.sc` makes `s.sc.Listener` panic; the
deferred function recovers and logs, so the method always returns. -/
def StopService (s : TCP) : Run Unit :=
  let s1 := { s with isStop := true }
  match s1.sc with
  | none => ⟨s1, [Event.log ("stop tcp service crashed," ++ nilDeref)], .returned ()⟩
  | some sc =>
    let ev1 := match sc.Listener with
      | some (some ln) => [Event.listenerClose ln]
      | _ => []
    let ev2 := match sc.UDPListener with
      | some u => [Event.udpListenerClose u]
      | none => []
    let ev3 := s1.userConns.Items.map (fun kv => Event.connClose kv.2)
    ⟨s1, ev1 ++ ev2 ++ ev3 ++ [Event.log "service tcp stoped"], .returned ()⟩

/-- The method `Clean`. -/
def Clean (s : TCP) : Run Unit := StopService s

/-! ## Dialling the parent -/

/-- The method `GetParentConn`: the pair `(conn, err)` it returns and the dial
effects it performed.  In the branch for a TLS parent behind a jumper the Go
code declares `conf, err := ...` inside the block, so the assignments from
`s.jumper.Dial` go to that inner `err`; the final bare `return` hands back the
named result `err`, which is still nil there. -/
def GetParentConn (w : World) (s : TCP) : Option Conn × Option GoError × List Event :=
  if s.cfg.ParentType = "tls" then
    match s.jumper with
    | none =>
      let r := w.TlsConnectHost s.cfg.Parent s.cfg.Timeout s.cfg.CertBytes s.cfg.KeyBytes
      let conn := if r.2 = none then some r.1 else none
      (conn, r.2, [Event.dial .TlsConnectHost s.cfg.Parent])
    | some j =>
      let c := w.TlsConfig s.cfg.CertBytes s.cfg.KeyBytes
      match c.2 with
      | some e => (none, some e, [Event.tlsConfig])
      | none =>
        let d := w.jumperDial j s.cfg.Parent (Duration s.cfg.Timeout)
        let innerErr := d.2
        let conn := if innerErr = none then some (w.tlsClient d.1 c.1) else none
        (conn, none, [Event.tlsConfig, Event.dial .JumperDial s.cfg.Parent])
  else if s.cfg.ParentType = "kcp" then
    let r := w.ConnectKCPHost s.cfg.Parent s.cfg.KCP
    (r.1, r.2, [Event.dial .ConnectKCPHost s.cfg.Parent])
  else
    match s.jumper with
    | none =>
      let r := w.ConnectHost s.cfg.Parent s.cfg.Timeout
      (r.1, r.2, [Event.dial .ConnectHost s.cfg.Parent])
    | some j =>
      let r := w.jumperDial j s.cfg.Parent (Duration s.cfg.Timeout)
      (r.1, r.2, [Event.dial .JumperDial s.cfg.Parent])

/-- The result the dial primitive selected by `GetParentConn` hands back: the
error half of `TlsConnectHost`, `jumper.Dial`, `ConnectKCPHost` or
`ConnectHost`, by parent kind and jumper (for a TLS parent behind a jumper the
primitive is `jumper.Dial`, reached once `TlsConfig` has succeeded). -/
def selectedDialErr (w : World) (s : TCP) : Option GoError :=
  if s.cfg.ParentType = "tls" then
    match s.jumper with
    | none => (w.TlsConnectHost s.cfg.Parent s.cfg.Timeout s.cfg.CertBytes s.cfg.KeyBytes).2
    | some j => (w.jumperDial j s.cfg.Parent (Duration s.cfg.Timeout)).2
  else if s.cfg.ParentType = "kcp" then
    (w.ConnectKCPHost s.cfg.Parent s.cfg.KCP).2
  else
    match s.jumper with
    | none => (w.ConnectHost s.cfg.Parent s.cfg.Timeout).2
    | some j => (w.jumperDial j s.cfg.Parent (Duration s.cfg.Timeout)).2

/-! ## The byte relay path -/

/-- The completion callback handed to `utils.IoBind` by `OutToTCP`. -/
def releaseCallback (s : TCP) (inAddr outAddr : String) : TCP × List Event :=
  ({ s with userConns := s.userConns.Remove inAddr },
    [Event.log ("conn " ++ inAddr ++ " - " ++ outAddr ++ " released")])

/-- The method `OutToTCP`.  `utils.IoBind` (declared outside this file) starts
the two copy directions and returns at once; it is the effect `ioBind`. -/
def OutToTCP (w : World) (s : TCP) (inConn : Conn) : Run (Option GoError) :=
  let g := GetParentConn w s
  match g.2.1 with
  | some e =>
    ⟨s, g.2.2 ++ [Event.log ("connect to " ++ s.cfg.Parent ++ " , err:" ++ e.Error)]
        ++ CloseConn inConn, .returned (some e)⟩
  | none =>
    let inAddr := inConn.remoteAddr
    match g.1 with
    | none => ⟨s, g.2.2, .panicked nilDeref⟩
    | some outConn =>
      let outAddr := outConn.remoteAddr
      let ev1 := [Event.ioBind inConn outConn,
        Event.log ("conn " ++ inAddr ++ " - " ++ outAddr ++ " connected")]
      let ev2 := match s.userConns.Get inAddr with
        | some c => [Event.connClose c]
        | none => []
      ⟨{ s with userConns := s.userConns.Set inAddr inConn },
        g.2.2 ++ ev1 ++ ev2 ++ [Event.registrySet inAddr inConn], .returned none⟩

/-! ## The UDP relay loop -/

/-- The answers of the outside world to one iteration of the loop of
`OutToUDP`: whether a concurrent `StopService` has set the flag before the
iteration starts, and the results of `utils.ReadUDPPacket`,
`net.ResolveUDPAddr`, `net.DialUDP`, `conn.Write`, `conn.ReadFromUDP` (the
slice `buf[0:len]` and the error) and the write to the inbound connection. -/
structure UDPRound where
  stopped : Bool
  read : String × Bytes × Option GoError
  resolve : String × Option GoError
  dial : Option GoError
  send : Option GoError
  recv : Bytes × Option GoError
  writeBack : Option GoError
deriving DecidableEq, Repr

/-- How one iteration leaves the loop body: `next` for `continue` or falling
off the end of the body, `exit` for `break` and `return`. -/
inductive LoopCtl where
  | next
  | exit
deriving DecidableEq, Repr

/-- One iteration of the `for` loop of `OutToUDP`. -/
def OutToUDP_iter (w : World) (s : TCP) (inConn : Conn) (r : UDPRound) :
    List Event × LoopCtl :=
  if s.isStop || r.stopped then ([Event.connClose inConn], .exit)
  else
    let srcAddr := r.read.1
    let body := r.read.2.1
    let err := r.read.2.2
    let ev0 := [Event.readUDPPacket inConn srcAddr body err]
    if err = some .EOF ∨ err = some .ErrUnexpectedEOF then
      (ev0 ++ CloseConn inConn, .exit)
    else
      let ev1 := ev0 ++ [Event.resolveUDPAddr s.cfg.Parent]
      match r.resolve.2 with
      | some e =>
        (ev1 ++ [Event.log ("can't resolve address: " ++ e.Error)] ++ CloseConn inConn, .exit)
      | none =>
        let dstAddr := r.resolve.1
        let ev2 := ev1 ++ [Event.dialUDP dstAddr]
        match r.dial with
        | some e =>
          (ev2 ++ [Event.log ("connect to udp " ++ dstAddr ++ " fail,ERR:" ++ e.Error)], .next)
        | none =>
          let ev3 := ev2 ++ [Event.udpSetDeadline (Duration s.cfg.Timeout), Event.udpWrite body]
          match r.send with
          | some e =>
            (ev3 ++ [Event.log ("send udp packet to " ++ dstAddr ++ " fail,ERR:" ++ e.Error)],
              .next)
          | none =>
            let ev4 := ev3 ++ [Event.udpRead]
            match r.recv.2 with
            | some e =>
              (ev4 ++ [Event.log
                ("read udp response from " ++ dstAddr ++ " fail ,ERR:" ++ e.Error)], .next)
            | none =>
              let respBody := r.recv.1
              let ev5 := ev4 ++ [Event.connWrite inConn (w.UDPPacket srcAddr respBody)]
              match r.writeBack with
              | some e =>
                (ev5 ++ [Event.log ("send udp response fail ,ERR:" ++ e.Error)]
                  ++ CloseConn inConn, .exit)
              | none => (ev5, .next)

/-- The `for` loop of `OutToUDP` run against a finite script of rounds: the
effects of each iteration it executed, and whether the loop was left (`true`)
or is waiting for a further round (`false`).  When the script is used up the
loop is at the top of its next iteration: with the flag `s.isStop` set it
closes the inbound connection and returns, otherwise it waits in the read. -/
def OutToUDP_loop (w : World) (s : TCP) (inConn : Conn) :
    List UDPRound → List (List Event) × Bool
  | [] => if s.isStop then ([[Event.connClose inConn]], true) else ([], false)
  | r :: rs =>
    match (OutToUDP_iter w s inConn r).2 with
    | .exit => ([(OutToUDP_iter w s inConn r).1], true)
    | .next =>
      ((OutToUDP_iter w s inConn r).1 :: (OutToUDP_loop w s inConn rs).1,
        (OutToUDP_loop w s inConn rs).2)

/-- The method `OutToUDP`.  Every `err` assigned in the loop is a variable of
the loop body, so the named result is nil whenever the method returns. -/
def OutToUDP (w : World) (s : TCP) (inConn : Conn) (rounds : List UDPRound) :
    Run (Option GoError) :=
  let l := OutToUDP_loop w s inConn rounds
  ⟨s, Event.log ("conn created , remote : " ++ inConn.remoteAddr ++ " ") :: l.1.flatten,
    if l.2 then .returned none else .blocked⟩

/-! ## The per-connection handler -/

/-- The body of `callback` up to the end of the `switch`: the call that the
parent kind selects, or the error of the `default` case. -/
def dispatch (w : World) (s : TCP) (inConn : Conn) (rounds : List UDPRound) :
    Run (Option GoError) :=
  if s.cfg.ParentType = "kcp" ∨ s.cfg.ParentType = "tcp" ∨ s.cfg.ParentType = "tls" then
    let r := OutToTCP w s inConn
    ⟨r.state, Event.call .OutToTCP inConn :: r.events, r.outcome⟩
  else if s.cfg.ParentType = "udp" then
    let r := OutToUDP w s inConn rounds
    ⟨r.state, Event.call .OutToUDP inConn :: r.events, r.outcome⟩
  else
    ⟨s, [], .returned (some (.errorf ("unkown parent type " ++ s.cfg.ParentType)))⟩

/-- The method `callback`: the handler of one accepted connection.  `rounds`
is the script of network answers for the UDP loop. -/
def callback (w : World) (s : TCP) (inConn : Conn) (rounds : List UDPRound) : Run Unit :=
  let lbAddr := ""
  let r := dispatch w s inConn rounds
  match r.outcome with
  | .returned (some err) =>
    ⟨r.state, r.events ++ [Event.log ("connect to " ++ s.cfg.ParentType ++ " parent " ++ lbAddr
        ++ " fail, ERR:" ++ err.Error)] ++ CloseConn inConn, .returned ()⟩
  | .returned none => ⟨r.state, r.events, .returned ()⟩
  | .panicked msg =>
    ⟨r.state, r.events ++ [Event.log (s.cfg.LocalType ++ " conn handler crashed with err : "
        ++ msg ++ " \nstack: " ++ w.stack)], .returned ()⟩
  | .blocked => ⟨r.state, r.events, .blocked⟩

/-! ## Observations on effect lists -/

/-- Number of upstream UDP dial attempts (`net.DialUDP`) in a list of effects. -/
def dialUDPCount : List Event → Nat
  | [] => 0
  | Event.dialUDP _ :: es => dialUDPCount es + 1
  | _ :: es => dialUDPCount es

/-- Number of envelopes that `utils.ReadUDPPacket` decoded without error. -/
def decodedCount : List Event → Nat
  | [] => 0
  | Event.readUDPPacket _ _ _ none :: es => decodedCount es + 1
  | _ :: es => decodedCount es

/-- The calls of `OutToTCP` and `OutToUDP` made by the handler, in order. -/
def calls : List Event → List (Fn × Conn)
  | [] => []
  | Event.call f c :: es => (f, c) :: calls es
  | _ :: es => calls es

/-- Whether an effect is a write to the given connection. -/
def isWriteTo (c : Conn) : Event → Bool
  | Event.connWrite d _ => d = c
  | _ => false

/-- Whether an effect is a call of one of the `Listen*` primitives or the
creation of the server channel. -/
def opensSocket : Event → Bool
  | Event.listen _ => true
  | Event.newServerChannel _ _ => true
  | _ => false

/-- In the effect list `tr` both effects occur and the first occurrence of `a`
comes before the first occurrence of `b`. -/
def Precedes (a b : Event) (tr : List Event) : Prop :=
  a ∈ tr ∧ b ∈ tr ∧ tr.indexOf a < tr.indexOf b

instance (a b : Event) (tr : List Event) : Decidable (Precedes a b tr) := by
  unfold Precedes; infer_instance

/-- A round of the UDP loop in which the stop flag is unset (neither set on the
service nor by a concurrent `StopService`) and decode, resolve and dial
succeed, so that the iteration reaches the upstream send. -/
def RoundReachesSend (s : TCP) (r : UDPRound) : Prop :=
  (s.isStop || r.stopped) = false ∧ r.read.2.2 = none ∧ r.resolve.2 = none ∧ r.dial = none

instance (s : TCP) (r : UDPRound) : Decidable (RoundReachesSend s r) := by
  unfold RoundReachesSend; infer_instance

/-! ## Sample inputs -/

/-- A world in which every collaborator succeeds. -/
def sampleWorld : World where
  TlsBytes := fun _ _ => ([1], [2], none)
  jumperNew := fun spec t => (⟨spec, t⟩, none)
  TlsConnectHost := fun addr _ _ _ => (⟨100, addr⟩, none)
  TlsConfig := fun _ _ => (7, none)
  tlsClient := fun c _ => match c with
    | some c => ⟨c.id + 1000, c.remoteAddr⟩
    | none => ⟨1000, ""⟩
  jumperDial := fun _ addr _ => (some ⟨101, addr⟩, none)
  ConnectKCPHost := fun addr _ => (some ⟨102, addr⟩, none)
  ConnectHost := fun addr _ => (some ⟨103, addr⟩, none)
  UDPPacket := fun src body => src.toList.map Char.toNat ++ body
  SplitHostPort := fun _ => ("0.0.0.0", "33080")
  Atoi := fun _ => 33080
  ListenTCP := fun sc => ({ sc with Listener := some (some 1) }, none)
  ListenTls := fun _ _ sc => ({ sc with Listener := some (some 2) }, none)
  ListenKCP := fun _ sc => ({ sc with Listener := some (some 3) }, none)
  listenerAddr := fun _ => "0.0.0.0:33080"
  stack := ""

/-- The world of `sampleWorld` except that `jumper.Dial` fails. -/
def dialFailWorld : World :=
  { sampleWorld with jumperDial := fun _ _ _ => (none, some (.external "dial tcp: i/o timeout")) }

def sampleArgs (parentType jumperSpec : String) : TCPArgs :=
  { Parent := "10.0.0.1:8080", CertFile := "proxy.crt", KeyFile := "proxy.key",
    CertBytes := [], KeyBytes := [], Local := ":33080", ParentType := parentType,
    LocalType := "tcp", Timeout := 2000, CheckParentInterval := 3, KCP := ⟨0⟩,
    Jumper := jumperSpec }

def sampleTCP (parentType jumperSpec : String) : TCP :=
  { NewTCP with cfg := sampleArgs parentType jumperSpec }

def clientA : Conn := ⟨1, "192.168.0.5:40001"⟩

/-- A started service with an open listener and one registered connection. -/
def runningTCP : TCP :=
  { sampleTCP "tcp" "" with
    sc := some ⟨"0.0.0.0", 33080, some (some 1), none⟩,
    userConns := ⟨[("192.168.0.5:40001", ⟨1, "192.168.0.5:40001"⟩)]⟩ }

/-- A round in which every step succeeds. -/
def goodRound (src : String) (body resp : Bytes) : UDPRound :=
  { stopped := false, read := (src, body, none), resolve := ("10.0.0.1:53", none),
    dial := none, send := none, recv := (resp, none), writeBack := none }

/-- A service with a UDP parent. -/
def udpTCP : TCP := sampleTCP "udp" ""

/-- Four datagrams; the upstream send fails for the second one and the
upstream receive fails for the third one. -/
def sampleRounds : List UDPRound :=
  [goodRound "1.1.1.1:1" [1] [11],
    { goodRound "2.2.2.2:2" [2] [22] with
      send := some (.external "write udp: connection refused") },
    { goodRound "3.3.3.3:3" [3] [] with
      recv := ([], some (.external "read udp: i/o timeout")) },
    goodRound "4.4.4.4:4" [4] [44]]

/-- A service with a TLS parent behind a parsed jumper. -/
def tlsJumperTCP : TCP :=
  { sampleTCP "tls" "socks5://10.0.0.9:1080" with
    jumper := some ⟨"socks5://10.0.0.9:1080", 2000000000⟩ }

def clientB : Conn := ⟨2, "192.168.0.6:40002"⟩

/-! ## Helper lemmas -/

theorem utf8ByteSize_eq_zero_iff (str : String) : str.utf8ByteSize = 0 ↔ str = "" := by
  constructor
  · intro h
    rcases str with ⟨l⟩
    cases l with
    | nil => rfl
    | cons c cs =>
      exfalso
      have hc := Char.utf8Size_pos c
      simp only [String.utf8ByteSize, String.utf8ByteSize.go] at h
      omega
  · intro h
    subst h
    rfl

theorem CheckArgs_loadTls_sc (w : World) (s : TCP) : (CheckArgs_loadTls w s).1.sc = s.sc := by
  unfold CheckArgs_loadTls
  split_ifs <;> rfl

theorem CheckArgs_loadTls_jumper (w : World) (s : TCP) :
    (CheckArgs_loadTls w s).1.jumper = s.jumper := by
  unfold CheckArgs_loadTls
  split_ifs <;> rfl

theorem CheckArgs_loadTls_Jumper (w : World) (s : TCP) :
    (CheckArgs_loadTls w s).1.cfg.Jumper = s.cfg.Jumper := by
  unfold CheckArgs_loadTls
  split_ifs <;> rfl

theorem CheckArgs_loadTls_ParentType (w : World) (s : TCP) :
    (CheckArgs_loadTls w s).1.cfg.ParentType = s.cfg.ParentType := by
  unfold CheckArgs_loadTls
  split_ifs <;> rfl

theorem CheckArgs_loadTls_Timeout (w : World) (s : TCP) :
    (CheckArgs_loadTls w s).1.cfg.Timeout = s.cfg.Timeout := by
  unfold CheckArgs_loadTls
  split_ifs <;> rfl

theorem CheckArgs_loadTls_err (w : World) (s : TCP) :
    (CheckArgs_loadTls w s).2 =
      if s.cfg.ParentType = "tls" ∨ s.cfg.LocalType = "tls" then
        (w.TlsBytes s.cfg.CertFile s.cfg.KeyFile).2.2 else none := by
  unfold CheckArgs_loadTls
  split_ifs <;> rfl

theorem CheckArgs_jumper_sc (w : World) (s : TCP) : (CheckArgs_jumper w s).1.sc = s.sc := by
  unfold CheckArgs_jumper
  split_ifs
  · rfl
  · split <;> rfl
  · rfl

theorem CheckArgs_sc (w : World) (s : TCP) : (CheckArgs w s).1.sc = s.sc := by
  unfold CheckArgs
  split_ifs
  · rfl
  · rfl
  · split
    · exact CheckArgs_loadTls_sc w s
    · rw [CheckArgs_jumper_sc, CheckArgs_loadTls_sc]

/-- With an empty parent address `CheckArgs` takes its first branch. -/
theorem CheckArgs_empty_parent (w : World) (s : TCP) (h : s.cfg.Parent = "") :
    CheckArgs w s =
      (s, some (.errorf ("parent required for " ++ s.cfg.LocalType ++ " " ++ s.cfg.Local))) := by
  unfold CheckArgs
  rw [if_pos ((utf8ByteSize_eq_zero_iff _).2 h)]

/-- With a jumper string and a parent kind that is neither "tls" nor "tcp" the
jumper step fails. -/
theorem CheckArgs_jumper_guard (w : World) (s : TCP) (hj : s.cfg.Jumper ≠ "")
    (htls : s.cfg.ParentType ≠ "tls") (htcp : s.cfg.ParentType ≠ "tcp") :
    (CheckArgs_jumper w s).2 = some (.errorf "jumper only worked of -T is tls or tcp") := by
  unfold CheckArgs_jumper
  rw [if_pos hj, if_pos ⟨htls, htcp⟩]

/-- A failed validation makes `Start` return the error with no effect at all. -/
theorem Start_of_CheckArgs_error (w : World) (s : TCP) (args : TCPArgs) (e : GoError)
    (h : (CheckArgs w { s with cfg := args }).2 = some e) :
    (Start w s args).outcome = .returned (some e) ∧ (Start w s args).events = [] ∧
      (Start w s args).state.sc = s.sc := by
  have hsc : (CheckArgs w { s with cfg := args }).1.sc = s.sc := CheckArgs_sc w _
  unfold Start
  simp only [h]
  exact ⟨trivial, trivial, hsc⟩

/-! ## Validation -/

/-- C8: for every configuration whose parent address is the empty string,
`CheckArgs` returns an error, and `Start` returns that same error having
performed no effect: the server channel is not created, no `Listen*` primitive
is called, and the service holds no server channel afterwards that it did not
hold before. -/
theorem C8_empty_parent_fails_before_listen (w : World) (s : TCP) (args : TCPArgs)
    (h : args.Parent = "") :
    ∃ e, (CheckArgs w { s with cfg := args }).2 = some e ∧
      (Start w s args).outcome = .returned (some e) ∧
      (Start w s args).events = [] ∧
      (∀ ev ∈ (Start w s args).events, opensSocket ev = false) ∧
      (Start w s args).state.sc = s.sc := by
  have hc := CheckArgs_empty_parent w { s with cfg := args } h
  have he : (CheckArgs w { s with cfg := args }).2 =
      some (.errorf ("parent required for " ++ args.LocalType ++ " " ++ args.Local)) := by
    rw [hc]
  obtain ⟨h1, h2, h3⟩ := Start_of_CheckArgs_error w s args _ he
  refine ⟨_, he, h1, h2, ?_, h3⟩
  rw [h2]
  intro ev hev
  cases hev

theorem C8_empty_parent_fails_before_listen_witness :
    ∃ e, (CheckArgs sampleWorld { NewTCP with cfg := { sampleArgs "tcp" "" with Parent := "" } }).2
        = some e ∧
      (Start sampleWorld NewTCP { sampleArgs "tcp" "" with Parent := "" }).outcome
        = .returned (some e) ∧
      (Start sampleWorld NewTCP { sampleArgs "tcp" "" with Parent := "" }).events = [] ∧
      (∀ ev ∈ (Start sampleWorld NewTCP { sampleArgs "tcp" "" with Parent := "" }).events,
        opensSocket ev = false) ∧
      (Start sampleWorld NewTCP { sampleArgs "tcp" "" with Parent := "" }).state.sc = NewTCP.sc :=
  C8_empty_parent_fails_before_listen sampleWorld NewTCP
    { sampleArgs "tcp" "" with Parent := "" } rfl

/-- C9: for every configuration with a non-empty jumper string: when the
parent kind is neither "tcp" nor "tls", `CheckArgs` returns an error and `Start`
returns it without creating the server channel or calling a `Listen*`
primitive; when the parent kind is "tcp" or "tls", the parent address is not
empty, the certificate and key load whenever the parent or local kind is
"tls", and `jumper.New` parses the string, `CheckArgs` returns no error and
stores the parsed jumper in the service. -/
theorem C9_chain_guard (w : World) (s : TCP) (args : TCPArgs) (hj : args.Jumper ≠ "") :
    ((args.ParentType ≠ "tcp" ∧ args.ParentType ≠ "tls") →
      ∃ e, (CheckArgs w { s with cfg := args }).2 = some e ∧
        (Start w s args).outcome = .returned (some e) ∧
        (Start w s args).events = []) ∧
    ((args.ParentType = "tcp" ∨ args.ParentType = "tls") →
      args.Parent ≠ "" →
      ((args.ParentType = "tls" ∨ args.LocalType = "tls") →
        (w.TlsBytes args.CertFile args.KeyFile).2.2 = none) →
      (w.jumperNew args.Jumper (Duration args.Timeout)).2 = none →
      (CheckArgs w { s with cfg := args }).2 = none ∧
        (CheckArgs w { s with cfg := args }).1.jumper =
          some (w.jumperNew args.Jumper (Duration args.Timeout)).1) := by
  constructor
  · rintro ⟨htcp, htls⟩
    have herr : ∃ e, (CheckArgs w { s with cfg := args }).2 = some e := by
      unfold CheckArgs
      split_ifs
      · exact ⟨_, rfl⟩
      · exact ⟨_, rfl⟩
      · split
        · exact ⟨_, rfl⟩
        · refine ⟨_, CheckArgs_jumper_guard w _ ?_ ?_ ?_⟩
          · rw [CheckArgs_loadTls_Jumper]; exact hj
          · rw [CheckArgs_loadTls_ParentType]; exact htls
          · rw [CheckArgs_loadTls_ParentType]; exact htcp
    obtain ⟨e, he⟩ := herr
    obtain ⟨h1, h2, _⟩ := Start_of_CheckArgs_error w s args e he
    exact ⟨e, he, h1, h2⟩
  · intro hk hp hload hparse
    have hp0 : ¬ args.Parent.utf8ByteSize = 0 := fun h => hp ((utf8ByteSize_eq_zero_iff _).1 h)
    have hne : args.ParentType ≠ "" := by
      rcases hk with hk | hk <;> rw [hk] <;> decide
    have hguard : ¬ (args.ParentType ≠ "tls" ∧ args.ParentType ≠ "tcp") := by
      rintro ⟨h1, h2⟩
      rcases hk with hk | hk
      · exact h2 hk
      · exact h1 hk
    have hl : (CheckArgs_loadTls w { s with cfg := args }).2 = none := by
      rw [CheckArgs_loadTls_err]
      split_ifs with h3
      · exact hload h3
      · rfl
    have hJ := CheckArgs_loadTls_Jumper w { s with cfg := args }
    have hP := CheckArgs_loadTls_ParentType w { s with cfg := args }
    have hT := CheckArgs_loadTls_Timeout w { s with cfg := args }
    have hstep : CheckArgs w { s with cfg := args } =
        CheckArgs_jumper w (CheckArgs_loadTls w { s with cfg := args }).1 := by
      unfold CheckArgs
      rw [if_neg hp0, if_neg hne]
      simp only [hl]
    rw [hstep]
    unfold CheckArgs_jumper
    rw [hJ, hP, hT, if_pos hj, if_neg hguard]
    simp only [hparse, and_self]

theorem C9_chain_guard_witness :
    (∃ e, (CheckArgs sampleWorld { NewTCP with cfg := sampleArgs "udp" "socks5://10.0.0.9:1080" }).2
        = some e ∧
      (Start sampleWorld NewTCP (sampleArgs "udp" "socks5://10.0.0.9:1080")).outcome
        = .returned (some e) ∧
      (Start sampleWorld NewTCP (sampleArgs "udp" "socks5://10.0.0.9:1080")).events = []) ∧
    ((CheckArgs sampleWorld { NewTCP with cfg := sampleArgs "tls" "socks5://10.0.0.9:1080" }).2
        = none ∧
      (CheckArgs sampleWorld { NewTCP with cfg := sampleArgs "tls" "socks5://10.0.0.9:1080" }).1.jumper
        = some (sampleWorld.jumperNew "socks5://10.0.0.9:1080" (Duration 2000)).1) :=
  ⟨(C9_chain_guard sampleWorld NewTCP (sampleArgs "udp" "socks5://10.0.0.9:1080")
      (by decide)).1 (by decide),
    (C9_chain_guard sampleWorld NewTCP (sampleArgs "tls" "socks5://10.0.0.9:1080")
      (by decide)).2 (Or.inr rfl) (by decide) (fun _ => rfl) rfl⟩

theorem CheckArgs_jumper_ParentType (w : World) (s : TCP) :
    (CheckArgs_jumper w s).1.cfg.ParentType = s.cfg.ParentType := by
  unfold CheckArgs_jumper
  split_ifs
  · rfl
  · split <;> rfl
  · rfl

theorem CheckArgs_ParentType (w : World) (s : TCP) :
    (CheckArgs w s).1.cfg.ParentType = s.cfg.ParentType := by
  unfold CheckArgs
  split_ifs
  · rfl
  · rfl
  · split
    · exact CheckArgs_loadTls_ParentType w s
    · rw [CheckArgs_jumper_ParentType, CheckArgs_loadTls_ParentType]

theorem calls_append (l₁ l₂ : List Event) : calls (l₁ ++ l₂) = calls l₁ ++ calls l₂ := by
  induction l₁ with
  | nil => rfl
  | cons e es ih => cases e <;> simp [calls, ih]

theorem calls_GetParentConn (w : World) (s : TCP) : calls (GetParentConn w s).2.2 = [] := by
  unfold GetParentConn
  dsimp only
  repeat' split
  all_goals rfl

theorem calls_OutToTCP (w : World) (s : TCP) (inConn : Conn) :
    calls (OutToTCP w s inConn).events = [] := by
  unfold OutToTCP
  dsimp only
  split
  · simp [calls_append, calls_GetParentConn, calls, CloseConn]
  · split
    · exact calls_GetParentConn w s
    · simp only [calls_append, calls_GetParentConn, List.nil_append]
      split <;> rfl

theorem calls_OutToUDP_iter (w : World) (s : TCP) (inConn : Conn) (r : UDPRound) :
    calls (OutToUDP_iter w s inConn r).1 = [] := by
  unfold OutToUDP_iter
  dsimp only
  split_ifs
  · rfl
  · rfl
  · repeat' split
    all_goals simp [calls_append, calls, CloseConn]

theorem calls_OutToUDP_loop (w : World) (s : TCP) (inConn : Conn) (rounds : List UDPRound) :
    calls (OutToUDP_loop w s inConn rounds).1.flatten = [] := by
  induction rounds with
  | nil =>
    unfold OutToUDP_loop
    split_ifs <;> rfl
  | cons r rs ih =>
    unfold OutToUDP_loop
    split
    · simp [calls_OutToUDP_iter]
    · simp [calls_append, calls_OutToUDP_iter, ih]

theorem calls_OutToUDP (w : World) (s : TCP) (inConn : Conn) (rounds : List UDPRound) :
    calls (OutToUDP w s inConn rounds).events = [] := by
  unfold OutToUDP
  simp only [calls]
  exact calls_OutToUDP_loop w s inConn rounds

/-- The handler adds no call of its own after the `switch`. -/
theorem calls_callback (w : World) (s : TCP) (inConn : Conn) (rounds : List UDPRound) :
    calls (callback w s inConn rounds).events = calls (dispatch w s inConn rounds).events := by
  unfold callback
  simp only
  split
  · simp [calls_append, calls, CloseConn]
  · rfl
  · simp [calls_append, calls]
  · rfl

theorem mem_of_calls_eq (tr : List Event) (f : Fn) (c : Conn) :
    Event.call f c ∈ tr ↔ (f, c) ∈ calls tr := by
  induction tr with
  | nil => simp [calls]
  | cons e es ih =>
    cases e <;> simp [calls, ih]

/-- The `default` case of the `switch` in `callback`: the effects are the
report of the error and the close of the inbound connection. -/
theorem callback_default_events (w : World) (s : TCP) (inConn : Conn) (rounds : List UDPRound)
    (h : s.cfg.ParentType ≠ "tcp" ∧ s.cfg.ParentType ≠ "tls" ∧ s.cfg.ParentType ≠ "kcp" ∧
        s.cfg.ParentType ≠ "udp") :
    (callback w s inConn rounds).events =
      [Event.log ("connect to " ++ s.cfg.ParentType ++ " parent " ++ "" ++ " fail, ERR:"
          ++ ("unkown parent type " ++ s.cfg.ParentType)),
        Event.connClose inConn] := by
  obtain ⟨h1, h2, h3, h4⟩ := h
  have hk1 : ¬ (s.cfg.ParentType = "kcp" ∨ s.cfg.ParentType = "tcp" ∨ s.cfg.ParentType = "tls") := by
    rintro (h | h | h)
    · exact h3 h
    · exact h1 h
    · exact h2 h
  have hd : dispatch w s inConn rounds =
      ⟨s, [], .returned (some (.errorf ("unkown parent type " ++ s.cfg.ParentType)))⟩ := by
    unfold dispatch
    rw [if_neg hk1, if_neg h4]
  unfold callback
  simp only [hd]
  rfl

/-- `OutToTCP` never waits for the script: it returns or panics. -/
theorem OutToTCP_not_blocked (w : World) (s : TCP) (inConn : Conn) :
    (OutToTCP w s inConn).outcome ≠ .blocked := by
  unfold OutToTCP
  dsimp only
  repeat' split
  all_goals simp

/-- `OutToUDP` returns nil or is still waiting for a round. -/
theorem OutToUDP_outcome (w : World) (s : TCP) (inConn : Conn) (rounds : List UDPRound) :
    (OutToUDP w s inConn rounds).outcome = .returned none ∨
      (OutToUDP w s inConn rounds).outcome = .blocked := by
  unfold OutToUDP
  dsimp only
  split_ifs
  · exact Or.inl rfl
  · exact Or.inr rfl

/-- What `callback` does after the `switch`, for any result of the selected
call: nothing on a nil error, the report and the close of the inbound
connection on an error, the crash report of the deferred `recover` on a panic;
the state is the one the call left. -/
theorem callback_after_switch (w : World) (s : TCP) (inConn : Conn) (rounds : List UDPRound)
    (st : TCP) (evs : List Event) (o : Outcome (Option GoError))
    (hd : dispatch w s inConn rounds = ⟨st, evs, o⟩) :
    (callback w s inConn rounds).state = st ∧
    (o = .returned none →
      (callback w s inConn rounds).events = evs ∧
      (callback w s inConn rounds).outcome = .returned ()) ∧
    (∀ err, o = .returned (some err) →
      (callback w s inConn rounds).events =
        evs ++ [Event.log ("connect to " ++ s.cfg.ParentType ++ " parent " ++ "" ++ " fail, ERR:"
            ++ err.Error), Event.connClose inConn] ∧
      (callback w s inConn rounds).outcome = .returned ()) ∧
    (∀ msg, o = .panicked msg →
      (callback w s inConn rounds).events =
        evs ++ [Event.log (s.cfg.LocalType ++ " conn handler crashed with err : " ++ msg
            ++ " \nstack: " ++ w.stack)] ∧
      (callback w s inConn rounds).outcome = .returned ()) ∧
    (o = .blocked →
      (callback w s inConn rounds).events = evs ∧
      (callback w s inConn rounds).outcome = .blocked) := by
  unfold callback
  simp only [hd]
  refine ⟨?_, ?_, ?_, ?_, ?_⟩
  · cases o with
    | returned a => cases a <;> rfl
    | panicked msg => rfl
    | blocked => rfl
  · intro h; subst h; exact ⟨rfl, rfl⟩
  · intro err h; subst h
    refine ⟨?_, rfl⟩
    simp [CloseConn]
  · intro msg h; subst h; exact ⟨rfl, rfl⟩
  · intro h; subst h; exact ⟨rfl, rfl⟩

/-! ## Dispatch -/

/-- C1: the handler `callback` dispatches by the configured parent kind.
For "tcp", "tls" and "kcp" the only call it makes is `OutToTCP` on the inbound
connection, and the handler is that run of `OutToTCP`: its state is the state
`OutToTCP` leaves, its effects are the call followed by the effects of
`OutToTCP`, followed by nothing when `OutToTCP` returns nil, by the error report
and the close of the inbound connection when it returns an error, and by the
crash report when it panics; no effect of `OutToUDP` is added.  For "udp" the
only call it makes is `OutToUDP` on the inbound connection, and the handler is
that run of `OutToUDP`: same state, the call followed by the effects of
`OutToUDP`, returning when `OutToUDP` returns and waiting while it waits.  For
every other parent-kind string it makes neither call, its effects are exactly
the report of the error "unkown parent type ..." followed by the close of the
inbound connection, and it returns with the service state unchanged. -/
theorem C1_callback_dispatch (w : World) (s : TCP) (inConn : Conn) (rounds : List UDPRound) :
    ((s.cfg.ParentType = "tcp" ∨ s.cfg.ParentType = "tls" ∨ s.cfg.ParentType = "kcp") →
      calls (callback w s inConn rounds).events = [(Fn.OutToTCP, inConn)] ∧
      Event.call .OutToTCP inConn ∈ (callback w s inConn rounds).events ∧
      (∀ c, Event.call .OutToUDP c ∉ (callback w s inConn rounds).events) ∧
      (callback w s inConn rounds).state = (OutToTCP w s inConn).state ∧
      ((OutToTCP w s inConn).outcome = .returned none →
        (callback w s inConn rounds).events =
          Event.call .OutToTCP inConn :: (OutToTCP w s inConn).events ∧
        (callback w s inConn rounds).outcome = .returned ()) ∧
      (∀ err, (OutToTCP w s inConn).outcome = .returned (some err) →
        (callback w s inConn rounds).events =
          Event.call .OutToTCP inConn :: (OutToTCP w s inConn).events ++
            [Event.log ("connect to " ++ s.cfg.ParentType ++ " parent " ++ "" ++ " fail, ERR:"
              ++ err.Error), Event.connClose inConn] ∧
        (callback w s inConn rounds).outcome = .returned ()) ∧
      (∀ msg, (OutToTCP w s inConn).outcome = .panicked msg →
        (callback w s inConn rounds).events =
          Event.call .OutToTCP inConn :: (OutToTCP w s inConn).events ++
            [Event.log (s.cfg.LocalType ++ " conn handler crashed with err : " ++ msg
              ++ " \nstack: " ++ w.stack)] ∧
        (callback w s inConn rounds).outcome = .returned ()) ∧
      (OutToTCP w s inConn).outcome ≠ .blocked) ∧
    (s.cfg.ParentType = "udp" →
      calls (callback w s inConn rounds).events = [(Fn.OutToUDP, inConn)] ∧
      Event.call .OutToUDP inConn ∈ (callback w s inConn rounds).events ∧
      (∀ c, Event.call .OutToTCP c ∉ (callback w s inConn rounds).events) ∧
      (callback w s inConn rounds).state = (OutToUDP w s inConn rounds).state ∧
      (callback w s inConn rounds).events =
        Event.call .OutToUDP inConn :: (OutToUDP w s inConn rounds).events ∧
      ((OutToUDP w s inConn rounds).outcome = .returned none →
        (callback w s inConn rounds).outcome = .returned ()) ∧
      ((OutToUDP w s inConn rounds).outcome = .blocked →
        (callback w s inConn rounds).outcome = .blocked) ∧
      ((OutToUDP w s inConn rounds).outcome = .returned none ∨
        (OutToUDP w s inConn rounds).outcome = .blocked)) ∧
    ((s.cfg.ParentType ≠ "tcp" ∧ s.cfg.ParentType ≠ "tls" ∧ s.cfg.ParentType ≠ "kcp" ∧
        s.cfg.ParentType ≠ "udp") →
      (∀ f c, Event.call f c ∉ (callback w s inConn rounds).events) ∧
      (callback w s inConn rounds).events =
        [Event.log ("connect to " ++ s.cfg.ParentType ++ " parent " ++ "" ++ " fail, ERR:"
            ++ ("unkown parent type " ++ s.cfg.ParentType)),
          Event.connClose inConn] ∧
      (callback w s inConn rounds).outcome = .returned () ∧
      (callback w s inConn rounds).state = s) := by
  refine ⟨?_, ?_, ?_⟩
  · intro hk
    have hk2 : s.cfg.ParentType = "kcp" ∨ s.cfg.ParentType = "tcp" ∨ s.cfg.ParentType = "tls" := by
      rcases hk with h | h | h
      · exact Or.inr (Or.inl h)
      · exact Or.inr (Or.inr h)
      · exact Or.inl h
    have hd : dispatch w s inConn rounds =
        ⟨(OutToTCP w s inConn).state, Event.call .OutToTCP inConn :: (OutToTCP w s inConn).events,
          (OutToTCP w s inConn).outcome⟩ := by
      unfold dispatch
      rw [if_pos hk2]
    have hc : calls (callback w s inConn rounds).events = [(Fn.OutToTCP, inConn)] := by
      rw [calls_callback, hd]
      show calls (Event.call .OutToTCP inConn :: (OutToTCP w s inConn).events) = _
      rw [calls, calls_OutToTCP]
    obtain ⟨hst, hnil, herr, hpanic, _⟩ := callback_after_switch w s inConn rounds _ _ _ hd
    refine ⟨hc, ?_, ?_, hst, hnil, ?_, ?_, OutToTCP_not_blocked w s inConn⟩
    · rw [mem_of_calls_eq, hc]
      exact List.mem_singleton.2 rfl
    · intro c
      rw [mem_of_calls_eq, hc]
      simp
    · intro err h
      simpa using herr err h
    · intro msg h
      simpa using hpanic msg h
  · intro hk
    have hk1 : ¬ (s.cfg.ParentType = "kcp" ∨ s.cfg.ParentType = "tcp" ∨ s.cfg.ParentType = "tls") := by
      rw [hk]
      decide
    have hd : dispatch w s inConn rounds =
        ⟨(OutToUDP w s inConn rounds).state,
          Event.call .OutToUDP inConn :: (OutToUDP w s inConn rounds).events,
          (OutToUDP w s inConn rounds).outcome⟩ := by
      unfold dispatch
      rw [if_neg hk1, if_pos hk]
    have hc : calls (callback w s inConn rounds).events = [(Fn.OutToUDP, inConn)] := by
      rw [calls_callback, hd]
      show calls (Event.call .OutToUDP inConn :: (OutToUDP w s inConn rounds).events) = _
      rw [calls, calls_OutToUDP]
    obtain ⟨hst, hnil, _, _, hblk⟩ := callback_after_switch w s inConn rounds _ _ _ hd
    have hout := OutToUDP_outcome w s inConn rounds
    refine ⟨hc, ?_, ?_, hst, ?_, fun h => (hnil h).2, fun h => (hblk h).2, hout⟩
    · rw [mem_of_calls_eq, hc]
      exact List.mem_singleton.2 rfl
    · intro c
      rw [mem_of_calls_eq, hc]
      simp
    · rcases hout with h | h
      · exact (hnil h).1
      · exact (hblk h).1
  · rintro ⟨h1, h2, h3, h4⟩
    have hk1 : ¬ (s.cfg.ParentType = "kcp" ∨ s.cfg.ParentType = "tcp" ∨ s.cfg.ParentType = "tls") := by
      rintro (h | h | h)
      · exact h3 h
      · exact h1 h
      · exact h2 h
    have hd : dispatch w s inConn rounds =
        ⟨s, [], .returned (some (.errorf ("unkown parent type " ++ s.cfg.ParentType)))⟩ := by
      unfold dispatch
      rw [if_neg hk1, if_neg h4]
    have he : (callback w s inConn rounds).events =
        [Event.log ("connect to " ++ s.cfg.ParentType ++ " parent " ++ "" ++ " fail, ERR:"
            ++ ("unkown parent type " ++ s.cfg.ParentType)),
          Event.connClose inConn] := by
      unfold callback
      simp only [hd]
      rfl
    refine ⟨?_, he, ?_, ?_⟩
    · intro f c
      rw [he]
      simp
    · unfold callback
      simp only [hd]
    · unfold callback
      simp only [hd]

/-- C10 (as stated, refuted): the parent kind "foo" is none of "tcp", "tls",
"kcp", "udp", yet `CheckArgs` returns no error for it, `Start` calls
`ListenTCP` and returns no error, and the kind reaches `callback`, whose
`default` case reports it. -/
theorem C10_unrecognized_kind_passes_CheckArgs :
    "foo" ∉ ["tcp", "tls", "kcp", "udp"] ∧
    (CheckArgs sampleWorld { NewTCP with cfg := sampleArgs "foo" "" }).2 = none ∧
    (Start sampleWorld NewTCP (sampleArgs "foo" "")).outcome = .returned none ∧
    Event.listen .tcp ∈ (Start sampleWorld NewTCP (sampleArgs "foo" "")).events ∧
    (callback sampleWorld (Start sampleWorld NewTCP (sampleArgs "foo" "")).state clientA []).events
      = [Event.log "connect to foo parent  fail, ERR:unkown parent type foo",
          Event.connClose clientA] := by
  decide

/-- When validation passes and the `Listen*` primitive selected by the local
kind succeeds and leaves a listener in the server channel, `Start` returns nil,
has called that primitive, and keeps the validated configuration. -/
theorem Start_of_listen_ok (w : World) (s : TCP) (args : TCPArgs) (ln : Nat)
    (hc : (CheckArgs w { s with cfg := args }).2 = none)
    (hl : (startListen w (CheckArgs w { s with cfg := args }).1
      (startChannel w (CheckArgs w { s with cfg := args }).1)).2.1 = none)
    (hln : (startListen w (CheckArgs w { s with cfg := args }).1
      (startChannel w (CheckArgs w { s with cfg := args }).1)).1.Listener = some (some ln)) :
    (Start w s args).outcome = .returned none ∧
    (∃ kind, Event.listen kind ∈ (Start w s args).events) ∧
    (Start w s args).state.cfg = (CheckArgs w { s with cfg := args }).1.cfg ∧
    (Start w s args).state.sc = some (startListen w (CheckArgs w { s with cfg := args }).1
      (startChannel w (CheckArgs w { s with cfg := args }).1)).1 := by
  have hkind : ∃ kind, Event.listen kind ∈ (startListen w (CheckArgs w { s with cfg := args }).1
      (startChannel w (CheckArgs w { s with cfg := args }).1)).2.2 := by
    unfold startListen at hln ⊢
    split_ifs at hln ⊢
    · exact ⟨_, List.mem_singleton.2 rfl⟩
    · exact ⟨_, List.mem_singleton.2 rfl⟩
    · exact ⟨_, List.mem_singleton.2 rfl⟩
    · simp [startChannel, NewServerChannel] at hln
  unfold startChannel at hl hln hkind
  unfold Start
  simp only [hc, InitService, hl, hln]
  refine ⟨trivial, ?_, trivial, rfl⟩
  obtain ⟨kind, hk⟩ := hkind
  exact ⟨kind, by simp [hk]⟩

/-- C10 (amended): for a parent kind that is none of "tcp", "tls", "kcp",
"udp": if it is the empty string, `CheckArgs` returns an error and `Start`
returns it without any effect.  If it is not empty, the parent address is not
empty, no jumper is configured and the certificate loads when the local kind
is "tls", `CheckArgs` returns no error; `Start` goes on to the listener, and
when the `Listen*` primitive selected by the local kind succeeds and leaves a
listener, `Start` has called it and returns no error, the started service
still carries the unrecognized kind, and `callback` run on the started service
reports "unkown parent type" and closes the inbound connection without
calling either relay path. -/
theorem C10_only_empty_kind_rejected (w : World) (s : TCP) (args : TCPArgs)
    (inConn : Conn) (rounds : List UDPRound)
    (hk : args.ParentType ∉ ["tcp", "tls", "kcp", "udp"]) :
    (args.ParentType = "" →
      ∃ e, (CheckArgs w { s with cfg := args }).2 = some e ∧
        (Start w s args).outcome = .returned (some e) ∧ (Start w s args).events = []) ∧
    (args.ParentType ≠ "" → args.Parent ≠ "" → args.Jumper = "" →
      (args.LocalType = "tls" → (w.TlsBytes args.CertFile args.KeyFile).2.2 = none) →
      (CheckArgs w { s with cfg := args }).2 = none ∧
      ∀ ln,
        (startListen w (CheckArgs w { s with cfg := args }).1
          (startChannel w (CheckArgs w { s with cfg := args }).1)).2.1 = none →
        (startListen w (CheckArgs w { s with cfg := args }).1
          (startChannel w (CheckArgs w { s with cfg := args }).1)).1.Listener = some (some ln) →
        (Start w s args).outcome = .returned none ∧
        (∃ kind, Event.listen kind ∈ (Start w s args).events) ∧
        (Start w s args).state.cfg.ParentType = args.ParentType ∧
        (callback w (Start w s args).state inConn rounds).events =
          [Event.log ("connect to " ++ args.ParentType ++ " parent " ++ "" ++ " fail, ERR:"
              ++ ("unkown parent type " ++ args.ParentType)),
            Event.connClose inConn] ∧
        calls (callback w (Start w s args).state inConn rounds).events = []) := by
  simp only [List.mem_cons, List.mem_singleton, List.not_mem_nil, or_false, not_or] at hk
  obtain ⟨h1, h2, h3, h4⟩ := hk
  refine ⟨?_, ?_⟩
  · intro he
    have herr : ∃ e, (CheckArgs w { s with cfg := args }).2 = some e := by
      unfold CheckArgs
      by_cases hp : args.Parent.utf8ByteSize = 0
      · rw [if_pos hp]
        exact ⟨_, rfl⟩
      · rw [if_neg hp, if_pos he]
        exact ⟨_, rfl⟩
    obtain ⟨e, hce⟩ := herr
    obtain ⟨ha, hb, _⟩ := Start_of_CheckArgs_error w s args e hce
    exact ⟨e, hce, ha, hb⟩
  · intro hne hp hj hload
    have hp0 : ¬ args.Parent.utf8ByteSize = 0 := fun h => hp ((utf8ByteSize_eq_zero_iff _).1 h)
    have hl : (CheckArgs_loadTls w { s with cfg := args }).2 = none := by
      rw [CheckArgs_loadTls_err]
      split_ifs with h5
      · rcases h5 with h5 | h5
        · exact absurd h5 h2
        · exact hload h5
      · rfl
    have hJ := CheckArgs_loadTls_Jumper w { s with cfg := args }
    have hcheck : (CheckArgs w { s with cfg := args }).2 = none := by
      unfold CheckArgs
      rw [if_neg hp0, if_neg hne]
      simp only [hl]
      unfold CheckArgs_jumper
      rw [hJ]
      have hj2 : ¬ (args.Jumper ≠ "") := fun h => h hj
      rw [if_neg hj2]
    refine ⟨hcheck, ?_⟩
    intro ln hlis hln
    obtain ⟨hout, hkind, hcfg, _⟩ := Start_of_listen_ok w s args ln hcheck hlis hln
    have hpt : (Start w s args).state.cfg.ParentType = args.ParentType := by
      rw [hcfg]
      exact CheckArgs_ParentType w { s with cfg := args }
    have hc := callback_default_events w (Start w s args).state inConn rounds
      (by rw [hpt]; exact ⟨h1, h2, h3, h4⟩)
    rw [hpt] at hc
    refine ⟨hout, hkind, hpt, hc, ?_⟩
    rw [hc]
    rfl

theorem C10_only_empty_kind_rejected_witness :
    (∃ e, (CheckArgs sampleWorld { NewTCP with cfg := sampleArgs "" "" }).2 = some e ∧
        (Start sampleWorld NewTCP (sampleArgs "" "")).outcome = .returned (some e) ∧
        (Start sampleWorld NewTCP (sampleArgs "" "")).events = []) ∧
    (CheckArgs sampleWorld { NewTCP with cfg := sampleArgs "http" "" }).2 = none ∧
    ((Start sampleWorld NewTCP (sampleArgs "http" "")).outcome = .returned none ∧
      (∃ kind, Event.listen kind ∈ (Start sampleWorld NewTCP (sampleArgs "http" "")).events) ∧
      (Start sampleWorld NewTCP (sampleArgs "http" "")).state.cfg.ParentType = "http" ∧
      (callback sampleWorld (Start sampleWorld NewTCP (sampleArgs "http" "")).state
          clientA []).events =
        [Event.log ("connect to " ++ "http" ++ " parent " ++ "" ++ " fail, ERR:"
            ++ ("unkown parent type " ++ "http")),
          Event.connClose clientA] ∧
      calls (callback sampleWorld (Start sampleWorld NewTCP (sampleArgs "http" "")).state
          clientA []).events = []) :=
  ⟨(C10_only_empty_kind_rejected sampleWorld NewTCP (sampleArgs "" "") clientA []
      (by decide)).1 rfl,
    ((C10_only_empty_kind_rejected sampleWorld NewTCP (sampleArgs "http" "") clientA []
      (by decide)).2 (by decide) (by decide) rfl (fun _ => rfl)).1,
    ((C10_only_empty_kind_rejected sampleWorld NewTCP (sampleArgs "http" "") clientA []
      (by decide)).2 (by decide) (by decide) rfl (fun _ => rfl)).2 1 rfl rfl⟩

/-! ## Dialling the parent -/

/-- Outside the branch for a TLS parent behind a jumper, `GetParentConn`
returns the error of the dial primitive it selected. -/
theorem GetParentConn_err_eq_selected (w : World) (s : TCP)
    (h : ¬ (s.cfg.ParentType = "tls" ∧ s.jumper ≠ none)) :
    (GetParentConn w s).2.1 = selectedDialErr w s := by
  unfold GetParentConn selectedDialErr
  dsimp only
  by_cases hk : s.cfg.ParentType = "tls"
  · have hj : s.jumper = none := by
      by_contra hj
      exact h ⟨hk, hj⟩
    rw [if_pos hk, if_pos hk, hj]
  · rw [if_neg hk, if_neg hk]
    split_ifs
    · rfl
    · cases s.jumper <;> rfl

/-- C2 (the code at the failing input): with a TLS parent behind a jumper and a
`TlsConfig` that succeeds, when `jumper.Dial` fails with the error `e` the
method `GetParentConn` returns a nil connection together with a nil error: the
error `e` is lost.  `OutToTCP` then passes its error check and panics on the
nil connection. -/
theorem C2_tls_jumper_dial_error_dropped (w : World) (s : TCP) (j : Jumper) (e : GoError)
    (inConn : Conn)
    (hk : s.cfg.ParentType = "tls") (hj : s.jumper = some j)
    (hconf : (w.TlsConfig s.cfg.CertBytes s.cfg.KeyBytes).2 = none)
    (hdial : (w.jumperDial j s.cfg.Parent (Duration s.cfg.Timeout)).2 = some e) :
    selectedDialErr w s = some e ∧
    (GetParentConn w s).1 = none ∧ (GetParentConn w s).2.1 = none ∧
    (OutToTCP w s inConn).outcome = .panicked nilDeref := by
  have hg : GetParentConn w s =
      (none, none, [Event.tlsConfig, Event.dial .JumperDial s.cfg.Parent]) := by
    unfold GetParentConn
    dsimp only
    rw [if_pos hk, hj]
    simp only [hconf, hdial]
    rfl
  refine ⟨?_, ?_, ?_, ?_⟩
  · unfold selectedDialErr
    rw [if_pos hk, hj]
    exact hdial
  · rw [hg]
  · rw [hg]
  · unfold OutToTCP
    dsimp only
    rw [hg]

theorem C2_tls_jumper_dial_error_dropped_witness :
    selectedDialErr dialFailWorld tlsJumperTCP = some (.external "dial tcp: i/o timeout") ∧
    (GetParentConn dialFailWorld tlsJumperTCP).1 = none ∧
    (GetParentConn dialFailWorld tlsJumperTCP).2.1 = none ∧
    (OutToTCP dialFailWorld tlsJumperTCP clientA).outcome = .panicked nilDeref :=
  C2_tls_jumper_dial_error_dropped dialFailWorld tlsJumperTCP
    ⟨"socks5://10.0.0.9:1080", 2000000000⟩ (.external "dial tcp: i/o timeout") clientA
    rfl rfl rfl rfl

/-! ## The byte relay path -/

theorem Get_Set_same (m : ConcurrentMap) (key : String) (c : Conn) :
    (m.Set key c).Get key = some c := by
  simp [ConcurrentMap.Set, ConcurrentMap.Get]

/-- Run after the registration, the completion callback of the relay removes
the entry of the connection. -/
theorem releaseCallback_after_Set (s : TCP) (key outAddr : String) (c : Conn) :
    (releaseCallback { s with userConns := s.userConns.Set key c } key outAddr).1.userConns.Get key
      = none := by
  simp [releaseCallback, ConcurrentMap.Set, ConcurrentMap.Remove, ConcurrentMap.Get]

/-- Run before the registration, the completion callback of the relay removes
nothing that the later registration does not put back. -/
theorem Set_after_releaseCallback (s : TCP) (key outAddr : String) (c : Conn) :
    ((releaseCallback s key outAddr).1.userConns.Set key c).Get key = some c :=
  Get_Set_same _ _ _

theorem not_mem_GetParentConn_events (w : World) (s : TCP) (ev : Event)
    (h1 : ∀ a b, ev ≠ Event.dial a b) (h2 : ev ≠ Event.tlsConfig) :
    ev ∉ (GetParentConn w s).2.2 := by
  unfold GetParentConn
  dsimp only
  repeat' split
  all_goals simp
  all_goals first
    | exact h2
    | exact h1 _ _
    | exact ⟨h2, h1 _ _⟩

/-- C4 (as stated, refuted): on a started service with one registered
connection, `StopService` closes the listener and the connection and sets the
flag, but the registry is not empty when it returns: the entry is still there. -/
theorem C4_registry_not_emptied_by_stop :
    (StopService runningTCP).outcome = .returned () ∧
    (StopService runningTCP).state.isStop = true ∧
    Event.listenerClose 1 ∈ (StopService runningTCP).events ∧
    Event.connClose clientA ∈ (StopService runningTCP).events ∧
    (StopService runningTCP).state.userConns.IsEmpty = false ∧
    (StopService runningTCP).state.userConns.Get clientA.remoteAddr = some clientA := by
  decide

/-- C4 (amended): for every started service state (server channel present,
listener open, any set of connections registered in `userConns`),
`StopService` returns, the stop flag is set, the listener is closed, and every
connection that was registered immediately before the call has been closed;
`StopService` removes no entry itself, so the registry holds the same entries
as before the call. -/
theorem C4_stop_closes_listener_and_conns (s : TCP) (sc : ServerChannel) (ln : Nat)
    (hsc : s.sc = some sc) (hl : sc.Listener = some (some ln)) :
    (StopService s).outcome = .returned () ∧
    (StopService s).state.isStop = true ∧
    Event.listenerClose ln ∈ (StopService s).events ∧
    (∀ kv ∈ s.userConns.Items, Event.connClose kv.2 ∈ (StopService s).events) ∧
    (StopService s).state.userConns = s.userConns := by
  unfold StopService
  simp only [hsc, hl]
  refine ⟨trivial, trivial, ?_, ?_, trivial⟩
  · simp
  · intro kv hkv
    simp only [List.mem_append, List.mem_map]
    exact Or.inl (Or.inr ⟨kv, hkv, rfl⟩)

theorem C4_stop_closes_listener_and_conns_witness :
    (StopService runningTCP).outcome = .returned () ∧
    (StopService runningTCP).state.isStop = true ∧
    Event.listenerClose 1 ∈ (StopService runningTCP).events ∧
    (∀ kv ∈ runningTCP.userConns.Items, Event.connClose kv.2 ∈ (StopService runningTCP).events) ∧
    (StopService runningTCP).state.userConns = runningTCP.userConns :=
  C4_stop_closes_listener_and_conns runningTCP ⟨"0.0.0.0", 33080, some (some 1), none⟩ 1 rfl rfl

/-! ## The UDP relay loop -/

/-- When an iteration leaves the loop, the loop executes no further round. -/
theorem OutToUDP_loop_exit (w : World) (s : TCP) (inConn : Conn) (r : UDPRound)
    (rs : List UDPRound) (h : (OutToUDP_iter w s inConn r).2 = .exit) :
    OutToUDP_loop w s inConn (r :: rs) = ([(OutToUDP_iter w s inConn r).1], true) := by
  rw [OutToUDP_loop]
  simp only [h]

/-- When an iteration continues, the loop goes on with the next round. -/
theorem OutToUDP_loop_next (w : World) (s : TCP) (inConn : Conn) (r : UDPRound)
    (rs : List UDPRound) (h : (OutToUDP_iter w s inConn r).2 = .next) :
    OutToUDP_loop w s inConn (r :: rs) =
      ((OutToUDP_iter w s inConn r).1 :: (OutToUDP_loop w s inConn rs).1,
        (OutToUDP_loop w s inConn rs).2) := by
  rw [OutToUDP_loop]
  simp only [h]

/-- With the flag `s.isStop` set, the loop closes the inbound connection at the
top of its first iteration and returns, whatever the script holds, also when
the script is empty. -/
theorem OutToUDP_loop_isStop (w : World) (s : TCP) (inConn : Conn) (rounds : List UDPRound)
    (h : s.isStop = true) :
    OutToUDP_loop w s inConn rounds = ([[Event.connClose inConn]], true) := by
  cases rounds with
  | nil => simp [OutToUDP_loop, h]
  | cons r rs =>
    have hit : OutToUDP_iter w s inConn r = ([Event.connClose inConn], .exit) := by
      unfold OutToUDP_iter
      simp [h]
    rw [OutToUDP_loop_exit w s inConn r rs (by rw [hit]), hit]

/-- C6 (as stated, refuted): a datagram is decoded, `net.DialUDP` fails for it,
and yet the inbound connection is not closed and the loop goes on: the second
datagram is decoded, forwarded and answered. -/
theorem C6_dial_failure_continues :
    (OutToUDP_iter sampleWorld udpTCP clientA
      { goodRound "1.2.3.4:5" [1] [2] with dial := some (.external "dial udp: network unreachable") }).2
      = .next ∧
    Event.connClose clientA ∉ (OutToUDP sampleWorld udpTCP clientA
      [{ goodRound "1.2.3.4:5" [1] [2] with dial := some (.external "dial udp: network unreachable") },
        goodRound "6.7.8.9:10" [3] [4]]).events ∧
    Event.readUDPPacket clientA "6.7.8.9:10" [3] none ∈ (OutToUDP sampleWorld udpTCP clientA
      [{ goodRound "1.2.3.4:5" [1] [2] with dial := some (.external "dial udp: network unreachable") },
        goodRound "6.7.8.9:10" [3] [4]]).events ∧
    Event.connWrite clientA (sampleWorld.UDPPacket "6.7.8.9:10" [4]) ∈
      (OutToUDP sampleWorld udpTCP clientA
      [{ goodRound "1.2.3.4:5" [1] [2] with dial := some (.external "dial udp: network unreachable") },
        goodRound "6.7.8.9:10" [3] [4]]).events := by
  decide

/-- C6 (amended): in an iteration of the loop of `OutToUDP` in which a
datagram was decoded: if resolving the parent UDP address fails, the effects
of the iteration are exactly the read, the resolve attempt, the log of the
resolve error and the close of the inbound connection, so no UDP dial is made,
and the loop terminates without processing any further datagram; if the
address resolves and `net.DialUDP` fails, the effects are exactly the read,
the resolve, the dial attempt and the log line "connect to udp ... fail" with
the dial error, so nothing is sent or written back, the inbound connection is
not closed, and the loop continues with the next datagram. -/
theorem C6_resolve_fatal_dial_skipped (w : World) (s : TCP) (inConn : Conn) (r : UDPRound)
    (rest : List UDPRound)
    (hstop : (s.isStop || r.stopped) = false) (hread : r.read.2.2 = none) :
    (r.resolve.2 ≠ none →
      (∃ e, r.resolve.2 = some e ∧
        (OutToUDP_iter w s inConn r).1 =
          [Event.readUDPPacket inConn r.read.1 r.read.2.1 none,
            Event.resolveUDPAddr s.cfg.Parent,
            Event.log ("can't resolve address: " ++ e.Error), Event.connClose inConn]) ∧
      Event.connClose inConn ∈ (OutToUDP_iter w s inConn r).1 ∧
      (∀ d, Event.dialUDP d ∉ (OutToUDP_iter w s inConn r).1) ∧
      (OutToUDP_iter w s inConn r).2 = .exit ∧
      OutToUDP_loop w s inConn (r :: rest) = ([(OutToUDP_iter w s inConn r).1], true)) ∧
    (r.resolve.2 = none → r.dial ≠ none →
      (∃ e, r.dial = some e ∧
        (OutToUDP_iter w s inConn r).1 =
          [Event.readUDPPacket inConn r.read.1 r.read.2.1 none,
            Event.resolveUDPAddr s.cfg.Parent, Event.dialUDP r.resolve.1,
            Event.log ("connect to udp " ++ r.resolve.1 ++ " fail,ERR:" ++ e.Error)]) ∧
      Event.dialUDP r.resolve.1 ∈ (OutToUDP_iter w s inConn r).1 ∧
      Event.connClose inConn ∉ (OutToUDP_iter w s inConn r).1 ∧
      (∀ b, Event.udpWrite b ∉ (OutToUDP_iter w s inConn r).1) ∧
      (∀ e ∈ (OutToUDP_iter w s inConn r).1, isWriteTo inConn e = false) ∧
      (OutToUDP_iter w s inConn r).2 = .next ∧
      OutToUDP_loop w s inConn (r :: rest) =
        ((OutToUDP_iter w s inConn r).1 :: (OutToUDP_loop w s inConn rest).1,
          (OutToUDP_loop w s inConn rest).2)) := by
  constructor
  · intro hres
    obtain ⟨e, he⟩ := Option.ne_none_iff_exists'.1 hres
    have hit : OutToUDP_iter w s inConn r =
        ([Event.readUDPPacket inConn r.read.1 r.read.2.1 none,
          Event.resolveUDPAddr s.cfg.Parent,
          Event.log ("can't resolve address: " ++ e.Error), Event.connClose inConn], .exit) := by
      unfold OutToUDP_iter
      simp [hstop, hread, he, CloseConn]
    refine ⟨⟨e, he, ?_⟩, ?_, ?_, ?_, ?_⟩
    · rw [hit]
    · rw [hit]; simp
    · intro d; rw [hit]; simp
    · rw [hit]
    · exact OutToUDP_loop_exit w s inConn r rest (by rw [hit])
  · intro hres hdial
    obtain ⟨e, he⟩ := Option.ne_none_iff_exists'.1 hdial
    have hit : OutToUDP_iter w s inConn r =
        ([Event.readUDPPacket inConn r.read.1 r.read.2.1 none,
          Event.resolveUDPAddr s.cfg.Parent, Event.dialUDP r.resolve.1,
          Event.log ("connect to udp " ++ r.resolve.1 ++ " fail,ERR:" ++ e.Error)], .next) := by
      unfold OutToUDP_iter
      simp [hstop, hread, hres, he]
    refine ⟨⟨e, he, ?_⟩, ?_, ?_, ?_, ?_, ?_, ?_⟩
    · rw [hit]
    · rw [hit]; simp
    · rw [hit]; simp
    · intro b; rw [hit]; simp
    · rw [hit]; simp [isWriteTo]
    · rw [hit]
    · exact OutToUDP_loop_next w s inConn r rest (by rw [hit])

theorem C6_resolve_fatal_dial_skipped_witness :
    (Event.connClose clientA ∈ (OutToUDP_iter sampleWorld udpTCP clientA
        { goodRound "1.2.3.4:5" [1] [2] with resolve := ("", some (.external "no such host")) }).1 ∧
      (∀ d, Event.dialUDP d ∉ (OutToUDP_iter sampleWorld udpTCP clientA
        { goodRound "1.2.3.4:5" [1] [2] with resolve := ("", some (.external "no such host")) }).1) ∧
      (OutToUDP_iter sampleWorld udpTCP clientA
        { goodRound "1.2.3.4:5" [1] [2] with resolve := ("", some (.external "no such host")) }).2
        = .exit ∧
      OutToUDP_loop sampleWorld udpTCP clientA
        ({ goodRound "1.2.3.4:5" [1] [2] with resolve := ("", some (.external "no such host")) }
          :: [goodRound "6.7.8.9:10" [3] [4]]) =
        ([(OutToUDP_iter sampleWorld udpTCP clientA
          { goodRound "1.2.3.4:5" [1] [2] with
            resolve := ("", some (.external "no such host")) }).1], true)) ∧
    ((∃ e, (some (GoError.external "network unreachable") : Option GoError) = some e ∧
        (OutToUDP_iter sampleWorld udpTCP clientA
          { goodRound "1.2.3.4:5" [1] [2] with dial := some (.external "network unreachable") }).1 =
          [Event.readUDPPacket clientA "1.2.3.4:5" [1] none,
            Event.resolveUDPAddr udpTCP.cfg.Parent, Event.dialUDP "10.0.0.1:53",
            Event.log ("connect to udp " ++ "10.0.0.1:53" ++ " fail,ERR:" ++ e.Error)]) ∧
      (OutToUDP_iter sampleWorld udpTCP clientA
        { goodRound "1.2.3.4:5" [1] [2] with dial := some (.external "network unreachable") }).2
        = .next) :=
  ⟨((C6_resolve_fatal_dial_skipped sampleWorld udpTCP clientA
      { goodRound "1.2.3.4:5" [1] [2] with resolve := ("", some (.external "no such host")) }
      [goodRound "6.7.8.9:10" [3] [4]] rfl rfl).1 (by decide)).2,
    ((C6_resolve_fatal_dial_skipped sampleWorld udpTCP clientA
      { goodRound "1.2.3.4:5" [1] [2] with dial := some (.external "network unreachable") }
      [goodRound "6.7.8.9:10" [3] [4]] rfl rfl).2 rfl (by decide)).1,
    ((C6_resolve_fatal_dial_skipped sampleWorld udpTCP clientA
      { goodRound "1.2.3.4:5" [1] [2] with dial := some (.external "network unreachable") }
      [goodRound "6.7.8.9:10" [3] [4]] rfl rfl).2 rfl (by decide)).2.2.2.2.2.1⟩

/-- C7 (the code at the failing input): when `utils.ReadUDPPacket` returns an
error that is neither `io.EOF` nor `io.ErrUnexpectedEOF`, the iteration does
not stop at the read: it resolves the parent address and, when that succeeds,
dials UDP; when the dial succeeds it sends the body variable of the failed
read; and when send, receive and write-back succeed it writes an envelope back
to the inbound connection, does not close it, and the loop continues. -/
theorem C7_other_decode_error_not_fatal (w : World) (s : TCP) (inConn : Conn) (r : UDPRound)
    (rest : List UDPRound) (e : GoError)
    (hstop : (s.isStop || r.stopped) = false)
    (hread : r.read.2.2 = some e) (h1 : e ≠ .EOF) (h2 : e ≠ .ErrUnexpectedEOF)
    (hres : r.resolve.2 = none) (hdial : r.dial = none) :
    Event.resolveUDPAddr s.cfg.Parent ∈ (OutToUDP_iter w s inConn r).1 ∧
    Event.dialUDP r.resolve.1 ∈ (OutToUDP_iter w s inConn r).1 ∧
    Event.udpWrite r.read.2.1 ∈ (OutToUDP_iter w s inConn r).1 ∧
    (r.send = none → r.recv.2 = none → r.writeBack = none →
      OutToUDP_iter w s inConn r =
        ([Event.readUDPPacket inConn r.read.1 r.read.2.1 (some e),
          Event.resolveUDPAddr s.cfg.Parent, Event.dialUDP r.resolve.1,
          Event.udpSetDeadline (Duration s.cfg.Timeout), Event.udpWrite r.read.2.1,
          Event.udpRead, Event.connWrite inConn (w.UDPPacket r.read.1 r.recv.1)], .next) ∧
      Event.connClose inConn ∉ (OutToUDP_iter w s inConn r).1 ∧
      OutToUDP_loop w s inConn (r :: rest) =
        ((OutToUDP_iter w s inConn r).1 :: (OutToUDP_loop w s inConn rest).1,
          (OutToUDP_loop w s inConn rest).2)) := by
  have hne : ¬ (some e = some GoError.EOF ∨ some e = some GoError.ErrUnexpectedEOF) := by
    rintro (h | h)
    · exact h1 (Option.some.inj h)
    · exact h2 (Option.some.inj h)
  have hpre : ∃ tl, (OutToUDP_iter w s inConn r).1 =
      [Event.readUDPPacket inConn r.read.1 r.read.2.1 (some e),
        Event.resolveUDPAddr s.cfg.Parent, Event.dialUDP r.resolve.1,
        Event.udpSetDeadline (Duration s.cfg.Timeout), Event.udpWrite r.read.2.1] ++ tl := by
    unfold OutToUDP_iter
    simp only [hstop, hread, hres, hdial, hne, if_false, Bool.false_eq_true]
    repeat' split
    all_goals exact ⟨_, by simp only [List.append_assoc, List.cons_append, List.nil_append]; rfl⟩
  obtain ⟨tl, htl⟩ := hpre
  refine ⟨?_, ?_, ?_, ?_⟩
  · rw [htl]; simp
  · rw [htl]; simp
  · rw [htl]; simp
  · intro hsend hrecv hwb
    have hit : OutToUDP_iter w s inConn r =
        ([Event.readUDPPacket inConn r.read.1 r.read.2.1 (some e),
          Event.resolveUDPAddr s.cfg.Parent, Event.dialUDP r.resolve.1,
          Event.udpSetDeadline (Duration s.cfg.Timeout), Event.udpWrite r.read.2.1,
          Event.udpRead, Event.connWrite inConn (w.UDPPacket r.read.1 r.recv.1)], .next) := by
      unfold OutToUDP_iter
      simp [hstop, hread, hres, hdial, hne, hsend, hrecv, hwb, h1, h2]
    refine ⟨hit, ?_, ?_⟩
    · rw [hit]; simp
    · exact OutToUDP_loop_next w s inConn r rest (by rw [hit])

theorem C7_other_decode_error_not_fatal_witness :
    Event.resolveUDPAddr udpTCP.cfg.Parent ∈ (OutToUDP_iter sampleWorld udpTCP clientA
      { goodRound "" [] [2] with
        read := ("", [], some (.external "read tcp: connection reset by peer")) }).1 ∧
    Event.dialUDP "10.0.0.1:53" ∈ (OutToUDP_iter sampleWorld udpTCP clientA
      { goodRound "" [] [2] with
        read := ("", [], some (.external "read tcp: connection reset by peer")) }).1 ∧
    Event.udpWrite [] ∈ (OutToUDP_iter sampleWorld udpTCP clientA
      { goodRound "" [] [2] with
        read := ("", [], some (.external "read tcp: connection reset by peer")) }).1 :=
  ⟨(C7_other_decode_error_not_fatal sampleWorld udpTCP clientA
      { goodRound "" [] [2] with
        read := ("", [], some (.external "read tcp: connection reset by peer")) }
      [] (.external "read tcp: connection reset by peer") rfl rfl (by decide) (by decide)
      rfl rfl).1,
    (C7_other_decode_error_not_fatal sampleWorld udpTCP clientA
      { goodRound "" [] [2] with
        read := ("", [], some (.external "read tcp: connection reset by peer")) }
      [] (.external "read tcp: connection reset by peer") rfl rfl (by decide) (by decide)
      rfl rfl).2.1,
    (C7_other_decode_error_not_fatal sampleWorld udpTCP clientA
      { goodRound "" [] [2] with
        read := ("", [], some (.external "read tcp: connection reset by peer")) }
      [] (.external "read tcp: connection reset by peer") rfl rfl (by decide) (by decide)
      rfl rfl).2.2.1⟩

/-- The handled decode errors: on `io.EOF` or `io.ErrUnexpectedEOF` the
iteration closes the inbound connection and leaves the loop right after the
read. -/
theorem OutToUDP_iter_eof (w : World) (s : TCP) (inConn : Conn) (r : UDPRound)
    (hstop : (s.isStop || r.stopped) = false)
    (hread : r.read.2.2 = some .EOF ∨ r.read.2.2 = some .ErrUnexpectedEOF) :
    OutToUDP_iter w s inConn r =
      ([Event.readUDPPacket inConn r.read.1 r.read.2.1 r.read.2.2, Event.connClose inConn],
        .exit) := by
  unfold OutToUDP_iter
  simp only [hstop, Bool.false_eq_true, if_false]
  rw [if_pos hread]
  rfl

theorem decodedCount_append (l₁ l₂ : List Event) :
    decodedCount (l₁ ++ l₂) = decodedCount l₁ + decodedCount l₂ := by
  induction l₁ with
  | nil => simp [decodedCount]
  | cons e es ih =>
    cases e with
    | readUDPPacket c a b err =>
      cases err <;> simp [decodedCount, ih]
      omega
    | _ => simp [decodedCount, ih]

theorem dialUDPCount_append (l₁ l₂ : List Event) :
    dialUDPCount (l₁ ++ l₂) = dialUDPCount l₁ + dialUDPCount l₂ := by
  induction l₁ with
  | nil => simp [dialUDPCount]
  | cons e es ih =>
    cases e <;> simp [dialUDPCount, ih]
    omega

/-- The effects of an iteration that reaches the send: the read, the resolve,
the dial, the deadline and the send, followed by what the send result allows. -/
theorem OutToUDP_iter_reaches_send (w : World) (s : TCP) (inConn : Conn) (r : UDPRound)
    (h : RoundReachesSend s r) :
    (OutToUDP_iter w s inConn r).1 =
      [Event.readUDPPacket inConn r.read.1 r.read.2.1 none,
        Event.resolveUDPAddr s.cfg.Parent, Event.dialUDP r.resolve.1,
        Event.udpSetDeadline (Duration s.cfg.Timeout), Event.udpWrite r.read.2.1] ++
      (match r.send with
        | some e =>
          [Event.log ("send udp packet to " ++ r.resolve.1 ++ " fail,ERR:" ++ e.Error)]
        | none =>
          Event.udpRead ::
          (match r.recv.2 with
            | some e =>
              [Event.log ("read udp response from " ++ r.resolve.1 ++ " fail ,ERR:" ++ e.Error)]
            | none =>
              Event.connWrite inConn (w.UDPPacket r.read.1 r.recv.1) ::
              (match r.writeBack with
                | some e =>
                  [Event.log ("send udp response fail ,ERR:" ++ e.Error), Event.connClose inConn]
                | none => []))) := by
  obtain ⟨hstop, hread, hres, hdial⟩ := h
  unfold OutToUDP_iter
  simp only [hstop, hread, hres, hdial, Bool.false_eq_true, if_false]
  cases r.send with
  | some e => simp
  | none =>
    cases r.recv.2 with
    | some e => simp
    | none =>
      cases r.writeBack with
      | some e => simp [CloseConn]
      | none => simp

theorem OutToUDP_iter_counts (w : World) (s : TCP) (inConn : Conn) (r : UDPRound)
    (h : RoundReachesSend s r) :
    decodedCount (OutToUDP_iter w s inConn r).1 = 1 ∧
      dialUDPCount (OutToUDP_iter w s inConn r).1 = 1 := by
  rw [OutToUDP_iter_reaches_send w s inConn r h]
  cases r.send with
  | some e => simp [decodedCount, dialUDPCount]
  | none =>
    cases r.recv.2 with
    | some e => simp [decodedCount, dialUDPCount]
    | none =>
      cases r.writeBack with
      | some e => simp [decodedCount, dialUDPCount]
      | none => simp [decodedCount, dialUDPCount]

/-- An iteration that reaches the send leaves the loop only through a failed
write-back: it continues when the send fails, when the receive fails, and when
the write-back succeeds. -/
theorem OutToUDP_iter_next (w : World) (s : TCP) (inConn : Conn) (r : UDPRound)
    (h : RoundReachesSend s r)
    (hwb : r.send = none → r.recv.2 = none → r.writeBack = none) :
    (OutToUDP_iter w s inConn r).2 = .next := by
  obtain ⟨hstop, hread, hres, hdial⟩ := h
  unfold OutToUDP_iter
  simp only [hstop, hread, hres, hdial, Bool.false_eq_true, if_false]
  cases hs : r.send with
  | some e => simp
  | none =>
    cases hr : r.recv.2 with
    | some e => simp
    | none =>
      simp [hwb hs hr]

/-- When the flag is unset on the service and every iteration before the last
round continues, the loop executes one iteration for each round of the
script. -/
theorem OutToUDP_loop_all (w : World) (s : TCP) (inConn : Conn) (hflag : s.isStop = false) :
    ∀ (rounds : List UDPRound),
      (∀ (i : Nat) (r : UDPRound), rounds[i]? = some r → i + 1 < rounds.length →
        (OutToUDP_iter w s inConn r).2 = .next) →
      (OutToUDP_loop w s inConn rounds).1 =
        rounds.map (fun r => (OutToUDP_iter w s inConn r).1) := by
  intro rounds
  induction rounds with
  | nil =>
    intro _
    simp [OutToUDP_loop, hflag]
  | cons r rs ih =>
    intro h
    cases hctl : (OutToUDP_iter w s inConn r).2 with
    | exit =>
      rw [OutToUDP_loop_exit w s inConn r rs hctl]
      cases rs with
      | nil => rfl
      | cons r2 rs2 =>
        have hn := h 0 r (by simp) (by simp)
        rw [hctl] at hn
        cases hn
    | next =>
      rw [OutToUDP_loop_next w s inConn r rs hctl]
      have hrs := ih (fun i r2 hi hlt => h (i + 1) r2 (by simpa using hi)
        (by simp only [List.length_cons]; omega))
      simp only [List.map_cons, hrs]

/-- In a script whose rounds all reach the send, the iterations decode one
datagram each and dial once each. -/
theorem OutToUDP_iter_counts_map (w : World) (s : TCP) (inConn : Conn) :
    ∀ (rounds : List UDPRound), (∀ r ∈ rounds, RoundReachesSend s r) →
      decodedCount (rounds.map (fun r => (OutToUDP_iter w s inConn r).1)).flatten
          = rounds.length ∧
        dialUDPCount (rounds.map (fun r => (OutToUDP_iter w s inConn r).1)).flatten
          = rounds.length := by
  intro rounds
  induction rounds with
  | nil =>
    intro _
    simp [decodedCount, dialUDPCount]
  | cons r rs ih =>
    intro h
    have hr := OutToUDP_iter_counts w s inConn r (h r (List.mem_cons_self _ _))
    have hrs := ih (fun x hx => h x (List.mem_cons_of_mem _ hx))
    simp only [List.map_cons, List.flatten_cons, decodedCount_append, dialUDPCount_append,
      hr.1, hr.2, hrs.1, hrs.2, List.length_cons]
    omega

/-- C5: take a script of N rounds in which the stop flag is never set and
decoding, resolving and dialling succeed in every round, the upstream send
fails for exactly the round at position k, and the write-back to the inbound
connection succeeds for every datagram before the last one (receive results
are arbitrary).  Then the loop of `OutToUDP` executes N iterations and decodes
N datagrams; exactly N upstream UDP dial attempts occur; the iteration of
datagram k writes nothing to the inbound connection, does not close it, and
continues the loop; and in every later iteration whose receive succeeds the
envelope `UDPPacket` of that datagram's own source address and the received
response is written to the inbound connection. -/
theorem C5_send_failure_isolated (w : World) (s : TCP) (inConn : Conn)
    (rounds : List UDPRound) (k : Nat)
    (hround : ∀ r ∈ rounds, RoundReachesSend s r)
    (hk : k < rounds.length)
    (hsend : ∀ (i : Nat) (r : UDPRound), rounds[i]? = some r → (r.send ≠ none ↔ i = k))
    (hwb : ∀ (i : Nat) (r : UDPRound), rounds[i]? = some r → i + 1 < rounds.length →
      r.writeBack = none) :
    decodedCount (OutToUDP w s inConn rounds).events = rounds.length ∧
    dialUDPCount (OutToUDP w s inConn rounds).events = rounds.length ∧
    (OutToUDP_loop w s inConn rounds).1.length = rounds.length ∧
    (∃ evk, (OutToUDP_loop w s inConn rounds).1[k]? = some evk ∧
      (∀ e ∈ evk, isWriteTo inConn e = false) ∧ Event.connClose inConn ∉ evk ∧
      ∀ r, rounds[k]? = some r → (OutToUDP_iter w s inConn r).2 = .next) ∧
    (∀ (j : Nat) (r : UDPRound), k < j → rounds[j]? = some r → r.recv.2 = none →
      ∃ evj, (OutToUDP_loop w s inConn rounds).1[j]? = some evj ∧
        Event.connWrite inConn (w.UDPPacket r.read.1 r.recv.1) ∈ evj ∧
        Event.connWrite inConn (w.UDPPacket r.read.1 r.recv.1) ∈
          (OutToUDP w s inConn rounds).events) := by
  have hflag : s.isStop = false := by
    have h := (hround _ (List.getElem_mem hk)).1
    cases hs : s.isStop with
    | false => rfl
    | true => rw [hs] at h; simp at h
  have hmap := OutToUDP_loop_all w s inConn hflag rounds (fun i r hi hlt =>
    OutToUDP_iter_next w s inConn r (hround r (List.getElem?_mem hi))
      (fun _ _ => hwb i r hi hlt))
  have hcnt := OutToUDP_iter_counts_map w s inConn rounds hround
  have hget : ∀ (j : Nat) (r : UDPRound), rounds[j]? = some r →
      (OutToUDP_loop w s inConn rounds).1[j]? = some (OutToUDP_iter w s inConn r).1 := by
    intro j r hj
    rw [hmap, List.getElem?_map, hj]
    rfl
  have hrk : rounds[k]? = some rounds[k] := List.getElem?_eq_getElem hk
  have hsk : (rounds[k]).send ≠ none := (hsend k _ hrk).2 rfl
  obtain ⟨e, he⟩ := Option.ne_none_iff_exists'.1 hsk
  refine ⟨?_, ?_, ?_, ?_, ?_⟩
  · unfold OutToUDP
    simp only [decodedCount]
    rw [hmap]
    exact hcnt.1
  · unfold OutToUDP
    simp only [dialUDPCount]
    rw [hmap]
    exact hcnt.2
  · rw [hmap, List.length_map]
  · refine ⟨_, hget k _ hrk, ?_, ?_, ?_⟩
    · rw [OutToUDP_iter_reaches_send w s inConn _ (hround _ (List.getElem_mem hk)), he]
      simp [isWriteTo]
    · rw [OutToUDP_iter_reaches_send w s inConn _ (hround _ (List.getElem_mem hk)), he]
      simp
    · intro r hr
      refine OutToUDP_iter_next w s inConn r (hround r (List.getElem?_mem hr)) ?_
      intro hnone
      exact absurd hnone ((hsend k r hr).2 rfl)
  · intro j r hkj hj hrecv
    have hmem : r ∈ rounds := List.getElem?_mem hj
    have hs : r.send = none := by
      by_contra hne
      have := (hsend j r hj).1 hne
      omega
    have hin : Event.connWrite inConn (w.UDPPacket r.read.1 r.recv.1) ∈
        (OutToUDP_iter w s inConn r).1 := by
      rw [OutToUDP_iter_reaches_send w s inConn r (hround r hmem), hs, hrecv]
      simp
    refine ⟨_, hget j r hj, hin, ?_⟩
    unfold OutToUDP
    refine List.mem_cons_of_mem _ ?_
    rw [List.mem_flatten]
    exact ⟨_, List.getElem?_mem (hget j r hj), hin⟩

theorem C5_send_failure_isolated_witness :
    decodedCount (OutToUDP sampleWorld udpTCP clientA sampleRounds).events = sampleRounds.length ∧
    dialUDPCount (OutToUDP sampleWorld udpTCP clientA sampleRounds).events = sampleRounds.length ∧
    (OutToUDP_loop sampleWorld udpTCP clientA sampleRounds).1.length = sampleRounds.length ∧
    (∃ evk, (OutToUDP_loop sampleWorld udpTCP clientA sampleRounds).1[1]? = some evk ∧
      (∀ e ∈ evk, isWriteTo clientA e = false) ∧ Event.connClose clientA ∉ evk ∧
      ∀ r, sampleRounds[1]? = some r → (OutToUDP_iter sampleWorld udpTCP clientA r).2 = .next) ∧
    (∃ evj, (OutToUDP_loop sampleWorld udpTCP clientA sampleRounds).1[3]? = some evj ∧
      Event.connWrite clientA (sampleWorld.UDPPacket "4.4.4.4:4" [44]) ∈ evj ∧
      Event.connWrite clientA (sampleWorld.UDPPacket "4.4.4.4:4" [44]) ∈
        (OutToUDP sampleWorld udpTCP clientA sampleRounds).events) :=
  have hcases : ∀ (i : Nat) (r : UDPRound), sampleRounds[i]? = some r →
      (i = 0 ∧ r = goodRound "1.1.1.1:1" [1] [11]) ∨
      (i = 1 ∧ r = { goodRound "2.2.2.2:2" [2] [22] with
          send := some (.external "write udp: connection refused") }) ∨
      (i = 2 ∧ r = { goodRound "3.3.3.3:3" [3] [] with
          recv := ([], some (.external "read udp: i/o timeout")) }) ∨
      (i = 3 ∧ r = goodRound "4.4.4.4:4" [4] [44]) := by
    intro i r h
    rcases i with _ | _ | _ | _ | i
    · exact Or.inl ⟨rfl, by simpa [sampleRounds] using h.symm⟩
    · exact Or.inr (Or.inl ⟨rfl, by simpa [sampleRounds] using h.symm⟩)
    · exact Or.inr (Or.inr (Or.inl ⟨rfl, by simpa [sampleRounds] using h.symm⟩))
    · exact Or.inr (Or.inr (Or.inr ⟨rfl, by simpa [sampleRounds] using h.symm⟩))
    · simp [sampleRounds] at h
  have hsend : ∀ (i : Nat) (r : UDPRound), sampleRounds[i]? = some r →
      (r.send ≠ none ↔ i = 1) := by
    intro i r h
    rcases hcases i r h with ⟨hi, hr⟩ | ⟨hi, hr⟩ | ⟨hi, hr⟩ | ⟨hi, hr⟩ <;>
      (subst hi; subst hr; decide)
  have hwb : ∀ (i : Nat) (r : UDPRound), sampleRounds[i]? = some r →
      i + 1 < sampleRounds.length → r.writeBack = none := by
    intro i r h _
    rcases hcases i r h with ⟨_, hr⟩ | ⟨_, hr⟩ | ⟨_, hr⟩ | ⟨_, hr⟩ <;>
      (subst hr; rfl)
  have h := C5_send_failure_isolated sampleWorld udpTCP clientA sampleRounds 1
    (by decide) (by decide) hsend hwb
  ⟨h.1, h.2.1, h.2.2.1, h.2.2.2.1,
    h.2.2.2.2 3 (goodRound "4.4.4.4:4" [4] [44]) (by decide) rfl rfl⟩

end TcpService
